import Mathlib

/-!
# SceneManager (CS330) — scene-state orchestration layer

A shallow embedding of `Source/SceneManager.cpp`: the texture registry
(`CreateGLTexture`, `BindGLTextures`, `FindTextureSlot`), the material registry
(`DefineObjectMaterials`, `FindMaterial`), the transformation composer
(`SetTransformations`), the shader-state dispatcher (`SetShaderColor`,
`SetShaderTexture`, `SetShaderMaterial`, `SetupSceneLights`) and scene preparation
(`PrepareScene`), followed by the properties established about them.

Conventions of the embedding:

* C++ `int` values are `Int`; no arithmetic in the modelled code can overflow.
* A `float` is a rational number.  `SetShaderColor` only divides a small exact
  integer by `255.0f`; that single operation is modelled bit-exactly
  (`F32.div`, IEEE-754 binary32, round to nearest, ties to even).  The matrix
  code is generic in the scalar type `K`, which needs only `0`, `1`, `+`, `-`
  and `*`: at `Binary32` these are the rounded binary32 operations the code
  executes, at a commutative ring they are exact.  The library functions
  `cos`, `sin` and `inversesqrt` are supplied by an environment (`Glm`).
* Undefined behaviour (out-of-bounds array access, null dereference) and fuel
  exhaustion of a `while` loop are explicit `Fault`s of `Except`.
-/

namespace CS330

/-! ## Vectors, matrices and uniform values -/

/-- The `glm::vec2` value type. -/
structure Vec2 (K : Type) where
  x : K
  y : K
deriving DecidableEq, Repr

/-- The `glm::vec3` value type. -/
structure Vec3 (K : Type) where
  x : K
  y : K
  z : K
deriving DecidableEq, Repr

/-- The `glm::vec4` value type; as a colour the components are `r g b a`. -/
structure Vec4 (K : Type) where
  x : K
  y : K
  z : K
  w : K
deriving DecidableEq, Repr

/-- The `glm::mat4` value type, stored column-major as in GLM: `c0 .. c3` are the four
columns, so the C++ expression `m[c][r]` is component `r` of column `c`. -/
structure Mat4 (K : Type) where
  c0 : Vec4 K
  c1 : Vec4 K
  c2 : Vec4 K
  c3 : Vec4 K
deriving DecidableEq, Repr

/-- A value handed to one of the shader manager's `set…Value` calls. -/
inductive UniformValue (K : Type) where
  | int (v : Int)
  | bool (v : Bool)
  | float (v : K)
  | vec2 (v : Vec2 K)
  | vec3 (v : Vec3 K)
  | vec4 (v : Vec4 K)
  | mat4 (v : Mat4 K)
  | sampler2D (v : Int)
deriving DecidableEq, Repr

/-! ## The shader manager (external collaborator) -/

/-- Modelled from the spec: the `ShaderManager` class is not part of the source file; the
spec gives it a narrow "set uniform by name" contract.  The model records every upload,
most recent first, so that both "what was uploaded" and "what value a uniform currently
has" can be read off. -/
structure ShaderManager (K : Type) where
  uniforms : List (String × UniformValue K)
deriving DecidableEq, Repr

namespace ShaderManager

variable {K : Type}

/-- Modelled from the spec: one upload of a named uniform. -/
def upload (sm : ShaderManager K) (name : String) (v : UniformValue K) : ShaderManager K :=
  { uniforms := (name, v) :: sm.uniforms }

/-- Modelled from the spec: `ShaderManager::setIntValue(name, value)`. -/
def setIntValue (sm : ShaderManager K) (name : String) (value : Int) : ShaderManager K :=
  sm.upload name (.int value)

/-- Modelled from the spec: `ShaderManager::setBoolValue(name, value)`. -/
def setBoolValue (sm : ShaderManager K) (name : String) (value : Bool) : ShaderManager K :=
  sm.upload name (.bool value)

/-- Modelled from the spec: `ShaderManager::setFloatValue(name, value)`. -/
def setFloatValue (sm : ShaderManager K) (name : String) (value : K) : ShaderManager K :=
  sm.upload name (.float value)

/-- Modelled from the spec: `ShaderManager::setVec2Value(name, value)`. -/
def setVec2Value (sm : ShaderManager K) (name : String) (value : Vec2 K) : ShaderManager K :=
  sm.upload name (.vec2 value)

/-- Modelled from the spec: `ShaderManager::setVec3Value(name, value)`. -/
def setVec3Value (sm : ShaderManager K) (name : String) (value : Vec3 K) : ShaderManager K :=
  sm.upload name (.vec3 value)

/-- Modelled from the spec: `ShaderManager::setVec4Value(name, value)`. -/
def setVec4Value (sm : ShaderManager K) (name : String) (value : Vec4 K) : ShaderManager K :=
  sm.upload name (.vec4 value)

/-- Modelled from the spec: `ShaderManager::setMat4Value(name, value)`. -/
def setMat4Value (sm : ShaderManager K) (name : String) (value : Mat4 K) : ShaderManager K :=
  sm.upload name (.mat4 value)

/-- Modelled from the spec: `ShaderManager::setSampler2DValue(name, slot)`. -/
def setSampler2DValue (sm : ShaderManager K) (name : String) (slot : Int) : ShaderManager K :=
  sm.upload name (.sampler2D slot)

/-- The value a uniform currently holds: the most recent upload under that name. -/
def uniform? (sm : ShaderManager K) (name : String) : Option (UniformValue K) :=
  match sm.uniforms.find? (fun p => p.1 == name) with
  | some p => some p.2
  | none => none

end ShaderManager

/-! ## Global names (the anonymous namespace of the source) -/

def g_ModelName : String := "model"
def g_ColorValueName : String := "objectColor"
def g_TextureValueName : String := "objectTexture"
def g_UseTextureName : String := "bUseTexture"
def g_UseLightingName : String := "bUseLighting"

/-! ## binary32 division of small integers -/

namespace F32

/-- The least `k` (searched upward from the given start, for at most `fuel` steps) with
`d * 2^23 ≤ n * 2^k`: the scaling that gives the quotient `n / d` a 24-bit significand. -/
def shift (n d : Nat) : Nat → Nat → Nat
  | 0, k => k
  | fuel + 1, k => if d * 2 ^ 23 ≤ n * 2 ^ k then k else shift n d fuel (k + 1)

/-- Integer quotient `a / b` rounded to nearest, ties to the even neighbour. -/
def roundNearestEven (a b : Nat) : Nat :=
  let q := a / b
  let r := a % b
  if 2 * r < b then q
  else if b < 2 * r then q + 1
  else if q % 2 = 0 then q else q + 1

/-- Significand `m` and scaling `k` of the binary32 quotient of two integers `n`, `d` with
`0 < d` and `n, d < 2^24` (so both are exact floats and the quotient is a normal number
below `2^24`): the result is `m / 2^k` with `2^23 ≤ m ≤ 2^24`, or zero. -/
def divParts (n d : Nat) : Nat × Nat :=
  if n = 0 then (0, 0)
  else
    let k := shift n d 64 0
    (roundNearestEven (n * 2 ^ k) d, k)

/-- The float `float(n) / float(d)` as a rational number. -/
def div (n d : Nat) : ℚ :=
  ((divParts n d).1 : ℚ) / 2 ^ (divParts n d).2

end F32

/-! ## binary32 arithmetic -/

/-- A finite binary32 number as a dyadic rational `m * 2^e`, kept in normal form (`m` odd,
or `m = 0` and `e = 0`) so that equal numbers are equal records.  Infinities, NaN and the
sign of zero are not represented: no operation modelled here overflows. -/
structure Binary32 where
  m : Int
  e : Int
deriving DecidableEq, Repr

namespace Binary32

/-- Normal form of `m * 2^e`: factors of two are moved from `m` into the exponent (at most
`fuel` of them). -/
def normalize : Nat → Int → Int → Binary32
  | 0, m, e => { m := m, e := e }
  | fuel + 1, m, e =>
    if m = 0 then { m := 0, e := 0 }
    else if m % 2 = 0 then normalize fuel (m / 2) (e + 1)
    else { m := m, e := e }

/-- The number of binary digits of `n`: the least `k` (searched upward for at most `fuel`
steps) with `n < 2^k`. -/
def bitLength (n : Nat) : Nat → Nat → Nat
  | 0, k => k
  | fuel + 1, k => if n < 2 ^ k then k else bitLength n fuel (k + 1)

/-- The binary32 number nearest to the exact value `m * 2^e` (ties to even): the
significand keeps 24 binary digits, fewer below the normal range (the unit in the last
place is never smaller than `2^-149`). -/
def round (m e : Int) : Binary32 :=
  let n := m.natAbs
  let shift : Int := max ((bitLength n 512 0 : Int) - 24) (-149 - e)
  if shift ≤ 0 then normalize 512 m e
  else normalize 512 (m.sign * (F32.roundNearestEven n (2 ^ shift.toNat) : Int)) (e + shift)

/-- The `float` with the value of an integer constant. -/
def ofInt (i : Int) : Binary32 :=
  round i 0

/-- Float addition: the exact sum, rounded. -/
def add (a b : Binary32) : Binary32 :=
  let e := min a.e b.e
  round (a.m * 2 ^ (a.e - e).toNat + b.m * 2 ^ (b.e - e).toNat) e

/-- Float subtraction: the exact difference, rounded. -/
def sub (a b : Binary32) : Binary32 :=
  let e := min a.e b.e
  round (a.m * 2 ^ (a.e - e).toNat - b.m * 2 ^ (b.e - e).toNat) e

/-- Float multiplication: the exact product, rounded. -/
def mul (a b : Binary32) : Binary32 :=
  round (a.m * b.m) (a.e + b.e)

instance : Zero Binary32 := ⟨{ m := 0, e := 0 }⟩
instance : One Binary32 := ⟨{ m := 1, e := 0 }⟩
instance : Add Binary32 := ⟨add⟩
instance : Sub Binary32 := ⟨sub⟩
instance : Mul Binary32 := ⟨mul⟩

end Binary32

/-! ## The scene manager -/

/-- Modelled from the spec: `SceneManager::TEXTURE_INFO` is declared in the missing header;
the source uses exactly the fields `ID` and `tag`. -/
structure TEXTURE_INFO where
  tag : String
  ID : Nat
deriving DecidableEq, Repr

/-- Modelled from the spec: `SceneManager::OBJECT_MATERIAL` is declared in the missing
header; the source uses exactly these six fields. -/
structure OBJECT_MATERIAL (K : Type) where
  ambientColor : Vec3 K
  ambientStrength : K
  diffuseColor : Vec3 K
  specularColor : Vec3 K
  shininess : K
  tag : String
deriving DecidableEq, Repr

/-- Modelled from the spec: the fixed number of cells of the array `m_textureIDs`, declared
in the missing header ("capped at a fixed maximum (16)"; the source's comment on
`BindGLTextures` says "There are up to 16 slots"). -/
@[reducible] def maxTextures : Nat := 16

/-- The data members of the class `SceneManager` that the modelled methods touch.
`m_pShaderManager` is a possibly-null pointer, modelled by the pointee's state;
`m_textureIDs` is the C array of `maxTextures` cells; `m_objectMaterials` is the
`std::vector` of defined materials. -/
structure SceneManager (K : Type) where
  m_pShaderManager : Option (ShaderManager K)
  m_loadedTextures : Int
  m_textureIDs : Fin maxTextures → TEXTURE_INFO
  m_objectMaterials : List (OBJECT_MATERIAL K)
deriving DecidableEq

/-- Ways in which the modelled code can leave defined behaviour. -/
inductive Fault where
  | outOfBounds
  | nullDereference
  | outOfFuel
deriving DecidableEq, Repr

/-- Method `SceneManager::SetShaderColor(int r, int g, int b, int a = 255)`.
Each `float …ColorValue` holds the clamped integer exactly; `/ 255.0f` is `F32.div`. -/
def SetShaderColor (self : SceneManager ℚ) (r g b : Int) (a : Int := 255) : SceneManager ℚ :=
  let redColorValue : Int := max 0 (min 255 r)
  let greenColorValue : Int := max 0 (min 255 g)
  let blueColorValue : Int := max 0 (min 255 b)
  let alphaValue : Int := max 0 (min 255 a)
  let currentColor : Vec4 ℚ :=
    { x := F32.div redColorValue.toNat 255
      y := F32.div greenColorValue.toNat 255
      z := F32.div blueColorValue.toNat 255
      w := F32.div alphaValue.toNat 255 }
  match self.m_pShaderManager with
  | some sm =>
    { self with
      m_pShaderManager :=
        some ((sm.setIntValue g_UseTextureName 0).setVec4Value g_ColorValueName currentColor) }
  | none => self

/-! ## GLM (external library) -/

/-- Modelled from the spec: the scalar functions of the C/GLM maths library that
`SetTransformations` reaches through `glm::radians` and `glm::rotate`.  They are not part
of the source and cannot be computed exactly, so they are parameters:
`cos`, `sin`, `inversesqrt`, and the degrees-to-radians factor used by `glm::radians`
(the literal `0.01745329251994329576923690768489`, i.e. pi / 180). -/
structure Glm (K : Type) where
  cos : K → K
  sin : K → K
  inversesqrt : K → K
  radiansPerDegree : K

namespace glm

variable {K : Type} [Zero K] [One K] [Add K] [Sub K] [Mul K]

/-- Modelled from the spec: GLM `vec4 * scalar`, component-wise. -/
def vec4Scale (v : Vec4 K) (s : K) : Vec4 K :=
  ⟨v.x * s, v.y * s, v.z * s, v.w * s⟩

/-- Modelled from the spec: GLM `vec4 + vec4`, component-wise. -/
def vec4Add (a b : Vec4 K) : Vec4 K :=
  ⟨a.x + b.x, a.y + b.y, a.z + b.z, a.w + b.w⟩

/-- Modelled from the spec: GLM `mat4(1.0f)`, the value the one-argument transform
functions of `<glm/gtx/transform.hpp>` start from. -/
def mat4Identity : Mat4 K :=
  ⟨⟨1, 0, 0, 0⟩, ⟨0, 1, 0, 0⟩, ⟨0, 0, 1, 0⟩, ⟨0, 0, 0, 1⟩⟩

/-- Modelled from the spec: GLM `mat4 * mat4` (column-major): column `j` of the result is
`A[0] * B[j][0] + A[1] * B[j][1] + A[2] * B[j][2] + A[3] * B[j][3]`. -/
def mat4Mul (m1 m2 : Mat4 K) : Mat4 K :=
  let col (b : Vec4 K) : Vec4 K :=
    vec4Add (vec4Add (vec4Add (vec4Scale m1.c0 b.x) (vec4Scale m1.c1 b.y))
      (vec4Scale m1.c2 b.z)) (vec4Scale m1.c3 b.w)
  ⟨col m2.c0, col m2.c1, col m2.c2, col m2.c3⟩

instance : Mul (Mat4 K) := ⟨mat4Mul⟩

/-- Modelled from the spec: `glm::radians(degrees)`. -/
def radians (env : Glm K) (degrees : K) : K :=
  degrees * env.radiansPerDegree

/-- Modelled from the spec: `glm::normalize(v)`, `v * inversesqrt(dot(v, v))`. -/
def normalize (env : Glm K) (v : Vec3 K) : Vec3 K :=
  let s := env.inversesqrt (v.x * v.x + v.y * v.y + v.z * v.z)
  ⟨v.x * s, v.y * s, v.z * s⟩

/-- Modelled from the spec: `glm::scale(v)` of `<glm/gtx/transform.hpp>`, that is
`glm::scale(mat4(1.0f), v)`: the first three columns of the identity scaled by `v`. -/
def scale (v : Vec3 K) : Mat4 K :=
  let m : Mat4 K := mat4Identity
  ⟨vec4Scale m.c0 v.x, vec4Scale m.c1 v.y, vec4Scale m.c2 v.z, m.c3⟩

/-- Modelled from the spec: `glm::translate(v)`, that is `glm::translate(mat4(1.0f), v)`:
the last column becomes `m[0] * v[0] + m[1] * v[1] + m[2] * v[2] + m[3]`. -/
def translate (v : Vec3 K) : Mat4 K :=
  let m : Mat4 K := mat4Identity
  { m with
    c3 := vec4Add (vec4Add (vec4Add (vec4Scale m.c0 v.x) (vec4Scale m.c1 v.y))
      (vec4Scale m.c2 v.z)) m.c3 }

/-- Modelled from the spec: `glm::rotate(angle, v)`, that is
`glm::rotate(mat4(1.0f), angle, v)`, GLM's axis-angle rotation.  `r_c_r` below is GLM's
`Rotate[c][r]`. -/
def rotate (env : Glm K) (angle : K) (v : Vec3 K) : Mat4 K :=
  let m : Mat4 K := mat4Identity
  let c := env.cos angle
  let s := env.sin angle
  let axis := normalize env v
  let temp : Vec3 K := ⟨(1 - c) * axis.x, (1 - c) * axis.y, (1 - c) * axis.z⟩
  let r00 := c + temp.x * axis.x
  let r01 := temp.x * axis.y + s * axis.z
  let r02 := temp.x * axis.z - s * axis.y
  let r10 := temp.y * axis.x - s * axis.z
  let r11 := c + temp.y * axis.y
  let r12 := temp.y * axis.z + s * axis.x
  let r20 := temp.z * axis.x + s * axis.y
  let r21 := temp.z * axis.y - s * axis.x
  let r22 := c + temp.z * axis.z
  ⟨vec4Add (vec4Add (vec4Scale m.c0 r00) (vec4Scale m.c1 r01)) (vec4Scale m.c2 r02),
   vec4Add (vec4Add (vec4Scale m.c0 r10) (vec4Scale m.c1 r11)) (vec4Scale m.c2 r12),
   vec4Add (vec4Add (vec4Scale m.c0 r20) (vec4Scale m.c1 r21)) (vec4Scale m.c2 r22),
   m.c3⟩

end glm

/-- Method `SceneManager::SetTransformations(scaleXYZ, XrotationDegrees, YrotationDegrees,
ZrotationDegrees, positionXYZ)`.  The source's scalars are `float`: instantiate `K` with
`Binary32` for the arithmetic the code performs. -/
def SetTransformations {K : Type} [Zero K] [One K] [Add K] [Sub K] [Mul K] (env : Glm K)
    (self : SceneManager K)
    (scaleXYZ : Vec3 K) (XrotationDegrees YrotationDegrees ZrotationDegrees : K)
    (positionXYZ : Vec3 K) : SceneManager K :=
  let scale := glm.scale scaleXYZ
  let rotationX := glm.rotate env (glm.radians env XrotationDegrees) ⟨1, 0, 0⟩
  let rotationY := glm.rotate env (glm.radians env YrotationDegrees) ⟨0, 1, 0⟩
  let rotationZ := glm.rotate env (glm.radians env ZrotationDegrees) ⟨0, 0, 1⟩
  let translation := glm.translate positionXYZ
  let modelView := translation * rotationX * rotationY * rotationZ * scale
  match self.m_pShaderManager with
  | some sm => { self with m_pShaderManager := some (sm.setMat4Value g_ModelName modelView) }
  | none => self

/-! ## Texture registry -/

/-- Modelled from the spec: what `stbi_load` reports about a decoded image (the pixel
buffer itself plays no role in the registry). -/
structure StbImage where
  width : Int
  height : Int
  colorChannels : Int
deriving DecidableEq, Repr

/-- Modelled from the spec: the part of the OpenGL context that `CreateGLTexture` reads
back, namely the texture names handed out by `glGenTextures` (here: 1, 2, 3, …). -/
structure GLContext where
  generatedTextures : Nat
deriving DecidableEq, Repr

/-- Lines 118–123 of `CreateGLTexture`: register the loaded texture under the tag in cell
`m_loadedTextures` of `m_textureIDs` and count it.  A write outside the array is a fault. -/
def CreateGLTexture.register {K : Type} (self : SceneManager K) (textureID : Nat)
    (tag : String) : Except Fault (SceneManager K) :=
  if h : 0 ≤ self.m_loadedTextures ∧ self.m_loadedTextures.toNat < maxTextures then
    .ok { self with
          m_textureIDs :=
            Function.update self.m_textureIDs ⟨self.m_loadedTextures.toNat, h.2⟩
              { ID := textureID, tag := tag }
          m_loadedTextures := self.m_loadedTextures + 1 }
  else .error .outOfBounds

/-- Method `SceneManager::CreateGLTexture(filename, tag)`.  `stbi_load` is the external
decoder (`none` is the null pointer it returns when the file cannot be decoded); the
result is the returned `bool` with the scene manager and the GL context after the call. -/
def CreateGLTexture {K : Type} (stbi_load : String → Option StbImage)
    (self : SceneManager K) (gl : GLContext) (filename : String) (tag : String) :
    Except Fault (Bool × SceneManager K × GLContext) :=
  match stbi_load filename with
  | some image =>
    let textureID := gl.generatedTextures + 1
    let gl : GLContext := { generatedTextures := gl.generatedTextures + 1 }
    let registered : Except Fault (Bool × SceneManager K × GLContext) :=
      match CreateGLTexture.register self textureID tag with
      | .ok self => .ok (true, self, gl)
      | .error e => .error e
    if image.colorChannels = 3 then registered
    else if image.colorChannels = 4 then registered
    else .ok (false, self, gl)
  | none => .ok (false, self, gl)

/-- The `while` loop of `FindTextureSlot`, with the loop variables as arguments. -/
def FindTextureSlot.loop {K : Type} (self : SceneManager K) (tag : String) :
    Nat → Nat → Int → Bool → Except Fault Int
  | 0, index, textureSlot, bFound =>
    if (index : Int) < self.m_loadedTextures ∧ bFound = false then .error .outOfFuel
    else .ok textureSlot
  | fuel + 1, index, textureSlot, bFound =>
    if (index : Int) < self.m_loadedTextures ∧ bFound = false then
      if h : index < maxTextures then
        if (self.m_textureIDs ⟨index, h⟩).tag = tag then
          FindTextureSlot.loop self tag fuel index index true
        else
          FindTextureSlot.loop self tag fuel (index + 1) textureSlot bFound
      else .error .outOfBounds
    else .ok textureSlot

/-- Method `SceneManager::FindTextureSlot(tag)`.  The loop body runs at most once per index
below `m_loadedTextures`, which bounds the fuel. -/
def FindTextureSlot {K : Type} (self : SceneManager K) (tag : String) : Except Fault Int :=
  FindTextureSlot.loop self tag (self.m_loadedTextures.toNat + 1) 0 (-1) false

/-! ## Material registry -/

/-- The `while` loop of `FindMaterial`; returns the output record as the loop leaves it. -/
def FindMaterial.loop {K : Type} (self : SceneManager K) (tag : String) :
    Nat → Nat → Bool → OBJECT_MATERIAL K → Except Fault (OBJECT_MATERIAL K)
  | 0, index, bFound, material =>
    if index < self.m_objectMaterials.length ∧ bFound = false then .error .outOfFuel
    else .ok material
  | fuel + 1, index, bFound, material =>
    if h : index < self.m_objectMaterials.length ∧ bFound = false then
      let entry := self.m_objectMaterials.get ⟨index, h.1⟩
      if entry.tag = tag then
        FindMaterial.loop self tag fuel index true
          { material with
            ambientColor := entry.ambientColor
            ambientStrength := entry.ambientStrength
            diffuseColor := entry.diffuseColor
            specularColor := entry.specularColor
            shininess := entry.shininess }
      else
        FindMaterial.loop self tag fuel (index + 1) bFound material
    else .ok material

/-- Method `SceneManager::FindMaterial(tag, material)`: the returned pair is the `bool`
result and the by-reference output record after the call. -/
def FindMaterial {K : Type} (self : SceneManager K) (tag : String)
    (material : OBJECT_MATERIAL K) : Except Fault (Bool × OBJECT_MATERIAL K) :=
  if self.m_objectMaterials.length = 0 then .ok (false, material)
  else
    match FindMaterial.loop self tag (self.m_objectMaterials.length + 1) 0 false material with
    | .ok material => .ok (true, material)
    | .error e => .error e

/-- Method `SceneManager::SetShaderMaterial(materialTag)`.  The local
`OBJECT_MATERIAL material;` is default-initialised: its `tag` is the empty string and its numeric members hold
indeterminate values, supplied here by `indeterminate`.  `m_pShaderManager` is
dereferenced without a null check. -/
def SetShaderMaterial {K : Type} (indeterminate : OBJECT_MATERIAL K) (self : SceneManager K)
    (materialTag : String) : Except Fault (SceneManager K) :=
  if self.m_objectMaterials.length > 0 then
    let material : OBJECT_MATERIAL K := { indeterminate with tag := "" }
    match FindMaterial self materialTag material with
    | .error e => .error e
    | .ok (bReturn, material) =>
      if bReturn = true then
        match self.m_pShaderManager with
        | none => .error .nullDereference
        | some sm =>
          .ok { self with
                m_pShaderManager := some
                  (((((sm.setVec3Value "material.ambientColor" material.ambientColor).setFloatValue
                    "material.ambientStrength" material.ambientStrength).setVec3Value
                    "material.diffuseColor" material.diffuseColor).setVec3Value
                    "material.specularColor" material.specularColor).setFloatValue
                    "material.shininess" material.shininess) }
      else .ok self
  else .ok self

/-! ## Texture binding, shader texture, materials, lights and scene preparation -/

/-- Constructor `SceneManager::SceneManager(pShaderManager)`.  The body assigns only
`m_pShaderManager` (and the mesh object, which is not modelled).  Modelled from the spec:
the member declarations are in the missing header, so the members the body does not
assign are default-initialised: the `int m_loadedTextures` and the `ID` of every array
cell hold indeterminate values, supplied by `loadedTextures` and `textureID`; every `tag`
is the empty string and `m_objectMaterials` is the empty vector. -/
def SceneManager.construct {K : Type} (pShaderManager : Option (ShaderManager K))
    (loadedTextures : Int) (textureID : Fin maxTextures → Nat) : SceneManager K :=
  { m_pShaderManager := pShaderManager
    m_loadedTextures := loadedTextures
    m_textureIDs := fun i => { tag := "", ID := textureID i }
    m_objectMaterials := [] }

/-- The `for` loop of `BindGLTextures`, with the number of remaining iterations and the
loop variable `i` as arguments; the result lists the `(texture unit, texture name)` pairs
bound by `glActiveTexture(GL_TEXTURE0 + i); glBindTexture(GL_TEXTURE_2D, …)`. -/
def BindGLTextures.loop {K : Type} (self : SceneManager K) :
    Nat → Nat → Except Fault (List (Nat × Nat))
  | 0, _ => .ok []
  | remaining + 1, i =>
    if h : i < maxTextures then
      match BindGLTextures.loop self remaining (i + 1) with
      | .ok bound => .ok ((i, (self.m_textureIDs ⟨i, h⟩).ID) :: bound)
      | .error e => .error e
    else .error .outOfBounds

/-- Method `SceneManager::BindGLTextures()`: the loop runs for
`i = 0 … m_loadedTextures - 1`. -/
def BindGLTextures {K : Type} (self : SceneManager K) : Except Fault (List (Nat × Nat)) :=
  BindGLTextures.loop self self.m_loadedTextures.toNat 0

/-- Method `SceneManager::SetShaderTexture(textureTag)`.  The integer `true` passed to
`setIntValue` is 1. -/
def SetShaderTexture {K : Type} (self : SceneManager K) (textureTag : String) :
    Except Fault (SceneManager K) :=
  match self.m_pShaderManager with
  | some sm =>
    let sm := sm.setIntValue g_UseTextureName 1
    match FindTextureSlot self textureTag with
    | .ok textureID =>
      .ok { self with
            m_pShaderManager := some (sm.setSampler2DValue g_TextureValueName textureID) }
    | .error e => .error e
  | none => .ok self

/-- Method `SceneManager::DefineObjectMaterials()`: four `push_back`s.  Every `float`
literal of the source is written as the rational number that is its binary32 value. -/
def DefineObjectMaterials (self : SceneManager ℚ) : SceneManager ℚ :=
  let porcelain : OBJECT_MATERIAL ℚ :=
    { tag := "porcelain"
      ambientColor := ⟨1 / 4, 1 / 4, 5033165 / 16777216⟩
      ambientStrength := 5033165 / 33554432
      diffuseColor := ⟨7549747 / 8388608, 7549747 / 8388608, 7549747 / 8388608⟩
      specularColor := ⟨11744051 / 16777216, 11744051 / 16777216, 11744051 / 16777216⟩
      shininess := 50 }
  let gold : OBJECT_MATERIAL ℚ :=
    { tag := "gold"
      ambientColor := ⟨16575889 / 67108864, 1669333 / 8388608, 620757 / 8388608⟩
      ambientStrength := 5033165 / 16777216
      diffuseColor := ⟨12599689 / 16777216, 10166993 / 16777216, 15166603 / 67108864⟩
      specularColor := ⟨2634023 / 4194304, 2332033 / 4194304, 6140461 / 16777216⟩
      shininess := 13421773 / 262144 }
  let silver : OBJECT_MATERIAL ℚ :=
    { tag := "silver"
      ambientColor := ⟨6442451 / 33554432, 6442451 / 33554432, 6442451 / 33554432⟩
      ambientStrength := 1 / 4
      diffuseColor := ⟨8506049 / 16777216, 8506049 / 16777216, 8506049 / 16777216⟩
      specularColor := ⟨4261413 / 8388608, 4261413 / 8388608, 4261413 / 8388608⟩
      shininess := 13421773 / 262144 }
  let bronze : OBJECT_MATERIAL ℚ :=
    { tag := "bronze"
      ambientColor := ⟨7130317 / 33554432, 2139095 / 16777216, 14495515 / 268435456⟩
      ambientStrength := 1 / 4
      diffuseColor := ⟨2994733 / 4194304, 14374719 / 33554432, 1522029 / 8388608⟩
      specularColor := ⟨3296723 / 8388608, 9093251 / 33554432, 11140071 / 67108864⟩
      shininess := 13421773 / 524288 }
  { self with
    m_objectMaterials := (((self.m_objectMaterials ++ [porcelain]) ++ [gold]) ++ [silver])
      ++ [bronze] }

/-- Method `SceneManager::SetupSceneLights()`: `m_pShaderManager` is dereferenced without a
null check; the three-float overload of `setVec3Value` uploads the vector of its
arguments.  Float literals are written as their binary32 values. -/
def SetupSceneLights (self : SceneManager ℚ) : Except Fault (SceneManager ℚ) :=
  match self.m_pShaderManager with
  | none => .error .nullDereference
  | some sm =>
    let sm := sm.setVec3Value "lightSources[0].position" ⟨3, 14, 0⟩
    let sm := sm.setVec3Value "lightSources[0].ambientColor"
      ⟨7130317 / 8388608, 3 / 4, 5452595 / 8388608⟩
    let sm := sm.setVec3Value "lightSources[0].diffuseColor"
      ⟨15938355 / 16777216, 7130317 / 8388608, 3 / 4⟩
    let sm := sm.setVec3Value "lightSources[0].specularColor"
      ⟨15938355 / 16777216, 7130317 / 8388608, 3 / 4⟩
    let sm := sm.setFloatValue "lightSources[0].focalStrength" 32
    let sm := sm.setFloatValue "lightSources[0].specularIntensity" (13421773 / 268435456)
    let sm := sm.setVec3Value "lightSources[1].position" ⟨-5, 10, 5⟩
    let sm := sm.setVec3Value "lightSources[1].ambientColor" ⟨0, 0, 0⟩
    let sm := sm.setVec3Value "lightSources[1].diffuseColor"
      ⟨3 / 4, 3 / 4, 7130317 / 8388608⟩
    let sm := sm.setVec3Value "lightSources[1].specularColor" ⟨0, 0, 0⟩
    let sm := sm.setFloatValue "lightSources[1].focalStrength" 1
    let sm := sm.setFloatValue "lightSources[1].specularIntensity" (13421773 / 134217728)
    let sm := sm.setBoolValue "bUseLighting" true
    .ok { self with m_pShaderManager := some sm }

/-- Method `SceneManager::PrepareScene()`: five `CreateGLTexture` calls whose `bool` results
are discarded, `BindGLTextures`, `SetupSceneLights`, and the eight mesh loads, which act
on the mesh object only and change no modelled member.  The result is the scene manager
and the GL context after the call, with the texture-unit bindings made. -/
def PrepareScene (stbi_load : String → Option StbImage) (self : SceneManager ℚ)
    (gl : GLContext) : Except Fault (SceneManager ℚ × GLContext × List (Nat × Nat)) :=
  match CreateGLTexture stbi_load self gl "Textures/floor.jpg" "floor" with
  | .error e => .error e
  | .ok (_, self, gl) =>
  match CreateGLTexture stbi_load self gl "Textures/coffee_body.jpg" "coffeeBody" with
  | .error e => .error e
  | .ok (_, self, gl) =>
  match CreateGLTexture stbi_load self gl "Textures/coffee_liquid.jpg" "coffeeLiquid" with
  | .error e => .error e
  | .ok (_, self, gl) =>
  match CreateGLTexture stbi_load self gl "Textures/laptop.jpg" "laptop" with
  | .error e => .error e
  | .ok (_, self, gl) =>
  match CreateGLTexture stbi_load self gl "Textures/mouse.jpg" "mouse" with
  | .error e => .error e
  | .ok (_, self, gl) =>
  match BindGLTextures self with
  | .error e => .error e
  | .ok bound =>
  match SetupSceneLights self with
  | .error e => .error e
  | .ok self => .ok (self, gl, bound)

/-! ## Reference definitions used to state the properties -/

/-- The spec's wording of one colour channel: clamp to `[0, 255]`, then normalise by 255
(the division being the binary32 one). -/
def specChannel (c : Int) : ℚ :=
  F32.div (min 255 (max 0 c)).toNat 255

/-- A `Mat4` as a mathematical matrix: entry `(r, c)` is component `r` of column `c`. -/
def Mat4.toMatrix {K : Type} (m : Mat4 K) : Matrix (Fin 4) (Fin 4) K :=
  !![m.c0.x, m.c1.x, m.c2.x, m.c3.x;
     m.c0.y, m.c1.y, m.c2.y, m.c3.y;
     m.c0.z, m.c1.z, m.c2.z, m.c3.z;
     m.c0.w, m.c1.w, m.c2.w, m.c3.w]

/-- A sequence of `CreateGLTexture` calls on `(filename, tag)` pairs, as in the
texture-loading block of `PrepareScene`; the `bool` results are collected in call order. -/
def CreateGLTextures {K : Type} (stbi_load : String → Option StbImage) :
    SceneManager K → GLContext → List (String × String) →
      Except Fault (List Bool × SceneManager K × GLContext)
  | self, gl, [] => .ok ([], self, gl)
  | self, gl, (filename, tag) :: rest =>
    match CreateGLTexture stbi_load self gl filename tag with
    | .error e => .error e
    | .ok (b, self, gl) =>
      match CreateGLTextures stbi_load self gl rest with
      | .error e => .error e
      | .ok (bs, self, gl) => .ok (b :: bs, self, gl)

/-- The registry `s2` extends `s1`: it holds at least as many loaded textures, still within
the array, and agrees with `s1` on every cell that `s1` had loaded. -/
def TexturesExtend {K : Type} (s1 s2 : SceneManager K) : Prop :=
  s1.m_loadedTextures ≤ s2.m_loadedTextures ∧ s2.m_loadedTextures ≤ maxTextures ∧
    ∀ i : Fin maxTextures, (i.val : Int) < s1.m_loadedTextures →
      s2.m_textureIDs i = s1.m_textureIDs i

/-- Whether the decoder yields an image with 3 or 4 channels for the file. -/
def decodes (stbi_load : String → Option StbImage) (filename : String) : Bool :=
  match stbi_load filename with
  | some image => image.colorChannels = 3 || image.colorChannels = 4
  | none => false

/-- The output record after `FindMaterial` has copied the five value fields of `entry`
into it (its own `tag` is not assigned). -/
def OBJECT_MATERIAL.assignedFrom {K : Type} (material entry : OBJECT_MATERIAL K) :
    OBJECT_MATERIAL K :=
  { material with
    ambientColor := entry.ambientColor
    ambientStrength := entry.ambientStrength
    diffuseColor := entry.diffuseColor
    specularColor := entry.specularColor
    shininess := entry.shininess }

/-- A registry with no texture loaded: every cell of `m_textureIDs` default-constructed. -/
def emptyRegistry : SceneManager ℚ :=
  { m_pShaderManager := some { uniforms := [] }
    m_loadedTextures := 0
    m_textureIDs := fun _ => { tag := "", ID := 0 }
    m_objectMaterials := [] }

/-- A registry after one successful load under the tag `"brick"`. -/
def oneBrick : SceneManager ℚ :=
  { emptyRegistry with
    m_loadedTextures := 1
    m_textureIDs := fun i =>
      if i.val = 0 then { tag := "brick", ID := 1 } else { tag := "", ID := 0 } }

/-- A registry after two successful loads, tagged `"floor"` and `"mouse"`. -/
def twoTextures : SceneManager ℚ :=
  { emptyRegistry with
    m_loadedTextures := 2
    m_textureIDs := fun i =>
      if i.val = 0 then { tag := "floor", ID := 1 }
      else if i.val = 1 then { tag := "mouse", ID := 2 }
      else { tag := "", ID := 0 } }

/-- The registry `twoTextures` after one more successful load, tagged `"wood"`. -/
def threeTextures : SceneManager ℚ :=
  { twoTextures with
    m_loadedTextures := 3
    m_textureIDs :=
      Function.update twoTextures.m_textureIDs ⟨2, by decide⟩ { tag := "wood", ID := 3 } }

/-- A full registry: sixteen loaded textures tagged `"0"` … `"15"`. -/
def fullRegistry : SceneManager ℚ :=
  { emptyRegistry with
    m_loadedTextures := 16
    m_textureIDs := fun i => { tag := toString i.val, ID := i.val + 1 } }

/-- A decoder for the examples: `"missing.png"` cannot be decoded, `"gray.png"` decodes
with one channel, `"rgba.png"` with four, every other file with three. -/
def exampleDecoder (filename : String) : Option StbImage :=
  if filename = "missing.png" then none
  else if filename = "gray.png" then some { width := 4, height := 4, colorChannels := 1 }
  else if filename = "rgba.png" then some { width := 4, height := 4, colorChannels := 4 }
  else some { width := 4, height := 4, colorChannels := 3 }

/-- A material record for the examples. -/
def exampleMaterial (tag : String) (shininess : ℚ) : OBJECT_MATERIAL ℚ :=
  { tag := tag
    ambientColor := ⟨1 / 4, 1 / 4, 1 / 2⟩
    ambientStrength := 1 / 8
    diffuseColor := ⟨1 / 2, 1 / 2, 1 / 2⟩
    specularColor := ⟨3 / 4, 3 / 4, 3 / 4⟩
    shininess := shininess }

/-- An output record (or the content of an uninitialised local) for the examples. -/
def exampleOutput : OBJECT_MATERIAL ℚ :=
  { tag := ""
    ambientColor := ⟨7, 7, 7⟩
    ambientStrength := 7
    diffuseColor := ⟨7, 7, 7⟩
    specularColor := ⟨7, 7, 7⟩
    shininess := 7 }

/-- A scene manager whose material registry holds `"porcelain"` and, twice, `"gold"`, and
whose shader still holds the shininess uploaded for the previous object. -/
def exampleMaterials : SceneManager ℚ :=
  { emptyRegistry with
    m_pShaderManager := some { uniforms := [("material.shininess", .float 50)] }
    m_objectMaterials :=
      [exampleMaterial "porcelain" 50, exampleMaterial "gold" 51, exampleMaterial "gold" 99] }

/-- Modelled from the spec: the C maths library and GLM constants in binary32, at the
arguments that the `SetTransformations` examples evaluate.  `cosf` and `sinf` at `0.0f` and
at `radians(90.0f) = 13176795 / 2^23` return the correctly rounded values
(`cosf` there is `-6151831 / 2^47`, about `-4.37e-8`, not 0); `inversesqrt(1.0f)` is `1.0f`;
the degrees-to-radians factor is the `float` nearest to pi / 180, `9370165 / 2^29`.  Other
arguments are not evaluated by the examples and get the small-angle values. -/
def libm32 : Glm Binary32 :=
  { cos := fun x =>
      if x = ({ m := 13176795, e := -23 } : Binary32) then { m := -6151831, e := -47 } else 1
    sin := fun x =>
      if x = ({ m := 13176795, e := -23 } : Binary32) then 1 else x
    inversesqrt := fun _ => 1
    radiansPerDegree := { m := 9370165, e := -29 } }

/-- A scene manager over binary32 scalars with an empty shader, for the examples. -/
def emptyScene32 : SceneManager Binary32 :=
  { m_pShaderManager := some { uniforms := [] }
    m_loadedTextures := 0
    m_textureIDs := fun _ => { tag := "", ID := 0 }
    m_objectMaterials := [] }

/-! ## Properties -/

/-! ### `SetShaderColor` -/

set_option maxRecDepth 100000 in
theorem F32.divParts_255 : ∀ n < 256,
    (F32.divParts n 255).1 ≤ 2 ^ (F32.divParts n 255).2 ∧
    2 ^ 25 * ((255 * (F32.divParts n 255).1 : Int) - (n * 2 ^ (F32.divParts n 255).2 : Nat)).natAbs
      ≤ 255 * 2 ^ (F32.divParts n 255).2 := by
  decide

set_option maxRecDepth 100000 in
/-- The pair computed by `F32.divParts n 255` is a binary32 number (a 24-bit significand,
or zero) and is a nearest one to `n / 255`: the error is at most half a unit in the last
place, `|m / 2^k - n / 255| ≤ 1 / 2^(k+1)`. -/
theorem F32.divParts_255_correctly_rounded : ∀ n < 256,
    (n = 0 ∨ (2 ^ 23 ≤ (F32.divParts n 255).1 ∧ (F32.divParts n 255).1 ≤ 2 ^ 24)) ∧
    2 * ((255 * (F32.divParts n 255).1 : Int) - (n * 2 ^ (F32.divParts n 255).2 : Nat)).natAbs
      ≤ 255 := by
  decide

theorem F32.div_255_bounds (n : Nat) (hn : n < 256) :
    0 ≤ F32.div n 255 ∧ F32.div n 255 ≤ 1 ∧ |F32.div n 255 - (n : ℚ) / 255| ≤ 1 / 2 ^ 25 := by
  obtain ⟨h1, h2⟩ := F32.divParts_255 n hn
  unfold F32.div
  generalize (F32.divParts n 255).1 = m at h1 h2
  generalize (F32.divParts n 255).2 = k at h1 h2
  have hk : (0 : ℚ) < 2 ^ k := by positivity
  refine ⟨by positivity, ?_, ?_⟩
  · rw [div_le_one hk]
    exact_mod_cast h1
  · have e : (m : ℚ) / 2 ^ k - (n : ℚ) / 255
        = (((255 * m : Int) - (n * 2 ^ k : Nat) : Int) : ℚ) / (255 * 2 ^ k) := by
      field_simp
      ring
    have hpos : (0 : ℚ) < 255 * 2 ^ k := by positivity
    rw [e, abs_div, abs_of_pos hpos, div_le_iff₀ hpos]
    have h3 : ((2 ^ 25 * ((255 * m : Int) - (n * 2 ^ k : Nat)).natAbs : Nat) : ℚ)
        ≤ ((255 * 2 ^ k : Nat) : ℚ) := by exact_mod_cast h2
    rw [Nat.cast_mul, Nat.cast_natAbs] at h3
    push_cast at h3 ⊢
    have h4 : (1 : ℚ) / 2 ^ 25 * (255 * 2 ^ k) = (255 * 2 ^ k) / 2 ^ 25 := by ring
    rw [h4, le_div_iff₀ (by positivity)]
    linarith

theorem clamp_comm (c : Int) : max 0 (min 255 c) = min 255 (max 0 c) := by omega

theorem clamp_toNat_lt (c : Int) : (min 255 (max 0 c)).toNat < 256 := by omega

theorem clamp_toNat_cast (c : Int) :
    (((min 255 (max 0 c)).toNat : Nat) : ℚ) = ((min 255 (max 0 c) : Int) : ℚ) := by
  have h : (((min 255 (max 0 c)).toNat : Nat) : Int) = min 255 (max 0 c) :=
    Int.toNat_of_nonneg (by omega)
  exact_mod_cast congrArg (fun i : Int => (i : ℚ)) h

theorem specChannel_300 : specChannel 300 = 1 := by
  have h : F32.divParts (min 255 (max 0 (300 : Int))).toNat 255 = (8388608, 23) := by decide
  rw [specChannel, F32.div, h]; norm_num

theorem specChannel_neg10 : specChannel (-10) = 0 := by
  have h : F32.divParts (min 255 (max 0 (-10 : Int))).toNat 255 = (0, 0) := by decide
  rw [specChannel, F32.div, h]; norm_num

theorem specChannel_128 : specChannel 128 = 8421505 / 16777216 := by
  have h : F32.divParts (min 255 (max 0 (128 : Int))).toNat 255 = (8421505, 24) := by decide
  rw [specChannel, F32.div, h]; norm_num

theorem specChannel_255 : specChannel 255 = 1 := by
  have h : F32.divParts (min 255 (max 0 (255 : Int))).toNat 255 = (8388608, 23) := by decide
  rw [specChannel, F32.div, h]; norm_num

theorem SetShaderColor_eq (self : SceneManager ℚ) (sm : ShaderManager ℚ) (r g b a : Int) :
    SetShaderColor { self with m_pShaderManager := some sm } r g b a =
      { self with
        m_pShaderManager := some (ShaderManager.mk
          (("objectColor",
              .vec4 ⟨specChannel r, specChannel g, specChannel b, specChannel a⟩)
            :: ("bUseTexture", .int 0) :: sm.uniforms)) } := by
  simp only [SetShaderColor, specChannel, ShaderManager.setVec4Value,
    ShaderManager.setIntValue, ShaderManager.upload, clamp_comm, g_ColorValueName,
    g_UseTextureName]

/-- C1: for all integers `r g b a`, `SetShaderColor(r, g, b, a)` with a non-null shader
manager uploads `bUseTexture = false` (the integer 0) and then `objectColor`, the vector
whose every channel is `min(255, max(0, c)) / 255` computed in binary32; afterwards the two
uniforms hold exactly these values.  Every channel lies in `[0, 1]` and is within half a
unit in the last place (`2^-25`) of the exact quotient.  `SetShaderColor(300, -10, 128)`
(alpha defaulted to 255) uploads `(1, 0, float(128/255), 1)`. -/
theorem SetShaderColor_uploads_clamped_normalized_color
    (self : SceneManager ℚ) (sm : ShaderManager ℚ) (r g b a : Int) :
    (SetShaderColor { self with m_pShaderManager := some sm } r g b a =
      { self with
        m_pShaderManager := some (ShaderManager.mk
          (("objectColor",
              .vec4 ⟨specChannel r, specChannel g, specChannel b, specChannel a⟩)
            :: ("bUseTexture", .int 0) :: sm.uniforms)) })
    ∧ ((SetShaderColor { self with m_pShaderManager := some sm } r g b a).m_pShaderManager.bind
          (fun m => m.uniform? "objectColor")
        = some (.vec4 ⟨specChannel r, specChannel g, specChannel b, specChannel a⟩))
    ∧ ((SetShaderColor { self with m_pShaderManager := some sm } r g b a).m_pShaderManager.bind
          (fun m => m.uniform? "bUseTexture")
        = some (.int 0))
    ∧ (∀ c : Int, 0 ≤ specChannel c ∧ specChannel c ≤ 1 ∧
        |specChannel c - ((min 255 (max 0 c) : Int) : ℚ) / 255| ≤ 1 / 2 ^ 25)
    ∧ (SetShaderColor { self with m_pShaderManager := some sm } 300 (-10) 128 =
      { self with
        m_pShaderManager := some (ShaderManager.mk
          (("objectColor", .vec4 ⟨1, 0, 8421505 / 16777216, 1⟩)
            :: ("bUseTexture", .int 0) :: sm.uniforms)) }) := by
  refine ⟨SetShaderColor_eq self sm r g b a, ?_, ?_, ?_, ?_⟩
  · rw [SetShaderColor_eq]
    simp [ShaderManager.uniform?, List.find?]
  · rw [SetShaderColor_eq]
    simp [ShaderManager.uniform?, List.find?]
  · intro c
    have h := F32.div_255_bounds _ (clamp_toNat_lt c)
    rw [clamp_toNat_cast] at h
    exact h
  · rw [SetShaderColor_eq, specChannel_300, specChannel_neg10, specChannel_128,
      specChannel_255]

/-! ### `SetTransformations` -/

theorem SetTransformations_eq {K : Type} [Zero K] [One K] [Add K] [Sub K] [Mul K]
    (env : Glm K) (self : SceneManager K)
    (sm : ShaderManager K) (s : Vec3 K) (x y z : K) (t : Vec3 K) :
    SetTransformations env { self with m_pShaderManager := some sm } s x y z t =
      { self with
        m_pShaderManager := some (ShaderManager.mk (("model", .mat4
          (glm.translate t * glm.rotate env (x * env.radiansPerDegree) ⟨1, 0, 0⟩
            * glm.rotate env (y * env.radiansPerDegree) ⟨0, 1, 0⟩
            * glm.rotate env (z * env.radiansPerDegree) ⟨0, 0, 1⟩ * glm.scale s))
          :: sm.uniforms)) } := by
  simp only [SetTransformations, ShaderManager.setMat4Value, ShaderManager.upload,
    g_ModelName, glm.radians]

theorem Mat4.mul_def {K : Type} [CommRing K] (a b : Mat4 K) : a * b = glm.mat4Mul a b := rfl

set_option maxRecDepth 100000 in
/-- Rounding is to nearest, ties to even, at 24 significant binary digits: `1 + 2^-24`
rounds down to 1, `1 + 3 * 2^-24` rounds up to `1 + 2^-22`, `1 - 2^-25` rounds up to 1,
and `2^24 + 1` is not representable as a float. -/
theorem Binary32_rounding_examples :
    (1 : Binary32) + { m := 1, e := -24 } = 1
    ∧ (1 : Binary32) + { m := 3, e := -24 } = { m := 4194305, e := -22 }
    ∧ (1 : Binary32) - { m := 1, e := -25 } = 1
    ∧ Binary32.ofInt 16777217 = { m := 1, e := 24 }
    ∧ Binary32.ofInt 3 * Binary32.ofInt 5 = Binary32.ofInt 15 := by
  decide

theorem identity_model {K : Type} [CommRing K] (env : Glm K)
    (hc : env.cos 0 = 1) (hs : env.sin 0 = 0) (hn : env.inversesqrt 1 = 1) :
    glm.translate ⟨0, 0, 0⟩ * glm.rotate env (0 * env.radiansPerDegree) ⟨1, 0, 0⟩
        * glm.rotate env (0 * env.radiansPerDegree) ⟨0, 1, 0⟩
        * glm.rotate env (0 * env.radiansPerDegree) ⟨0, 0, 1⟩ * glm.scale ⟨1, 1, 1⟩
      = (glm.mat4Identity : Mat4 K) := by
  simp [Mat4.mul_def, glm.mat4Mul, glm.translate, glm.rotate, glm.scale, glm.normalize,
    glm.mat4Identity, glm.vec4Add, glm.vec4Scale, hn, hc, hs]

theorem toMatrix_identity {K : Type} [CommRing K] :
    (glm.mat4Identity : Mat4 K).toMatrix = 1 := by
  ext i j
  fin_cases i <;> fin_cases j <;> rfl

/-- C3: `SetTransformations` with scale `(1,1,1)`, rotation `(0,0,0)` degrees and
translation `(0,0,0)` uploads the 4×4 identity matrix as the model matrix (given
`cos 0 = 1`, `sin 0 = 0` and `inversesqrt 1 = 1`, and a non-null shader manager). -/
theorem SetTransformations_identity {K : Type} [CommRing K] (env : Glm K)
    (hc : env.cos 0 = 1) (hs : env.sin 0 = 0) (hn : env.inversesqrt 1 = 1)
    (self : SceneManager K) (sm : ShaderManager K) :
    SetTransformations env { self with m_pShaderManager := some sm }
        ⟨1, 1, 1⟩ 0 0 0 ⟨0, 0, 0⟩ =
      { self with
        m_pShaderManager :=
          some (ShaderManager.mk (("model", .mat4 glm.mat4Identity) :: sm.uniforms)) }
    ∧ (glm.mat4Identity : Mat4 K) = ⟨⟨1, 0, 0, 0⟩, ⟨0, 1, 0, 0⟩, ⟨0, 0, 1, 0⟩, ⟨0, 0, 0, 1⟩⟩
    ∧ (glm.mat4Identity : Mat4 K).toMatrix = 1 := by
  refine ⟨?_, rfl, toMatrix_identity⟩
  rw [SetTransformations_eq, identity_model env hc hs hn]

/-- Witness for C3 over the real numbers with the real cosine, sine and inverse square
root. -/
theorem SetTransformations_identity_witness :
    (Real.cos 0 = 1 ∧ Real.sin 0 = 0 ∧ (Real.sqrt 1)⁻¹ = 1)
    ∧ SetTransformations
          (Glm.mk Real.cos Real.sin (fun v => (Real.sqrt v)⁻¹) (Real.pi / 180))
          (SceneManager.mk (some (ShaderManager.mk [])) 0 (fun _ => ⟨"", 0⟩) [])
          ⟨1, 1, 1⟩ 0 0 0 ⟨0, 0, 0⟩ =
        SceneManager.mk (some (ShaderManager.mk [("model", .mat4 glm.mat4Identity)])) 0
          (fun _ => ⟨"", 0⟩) [] :=
  ⟨⟨Real.cos_zero, Real.sin_zero, by simp⟩,
    (SetTransformations_identity
      (Glm.mk Real.cos Real.sin (fun v => (Real.sqrt v)⁻¹) (Real.pi / 180))
      Real.cos_zero Real.sin_zero (by simp)
      (SceneManager.mk none 0 (fun _ => ⟨"", 0⟩) []) (ShaderManager.mk [])).1⟩

set_option maxRecDepth 100000 in
/-- In binary32 too, `SetTransformations` with unit scale, zero rotation and zero
translation uploads `mat4(1)`: every operation involved is exact. -/
theorem SetTransformations_identity_binary32 :
    SetTransformations libm32 emptyScene32 ⟨1, 1, 1⟩ 0 0 0 ⟨0, 0, 0⟩ =
      { emptyScene32 with
        m_pShaderManager := some (ShaderManager.mk [("model", .mat4 glm.mat4Identity)]) } := by
  decide

/-! ### Texture registry -/

theorem FindTextureSlot_loop_found {K : Type} (self : SceneManager K) (tag : String)
    (fuel index : Nat) (slot : Int) :
    FindTextureSlot.loop self tag fuel index slot true = .ok slot := by
  cases fuel <;> simp [FindTextureSlot.loop]

theorem FindTextureSlot_loop_spec {K : Type} (self : SceneManager K) (tag : String)
    (hcap : self.m_loadedTextures ≤ maxTextures) :
    ∀ (d fuel index : Nat) (slot : Int),
      self.m_loadedTextures.toNat - index ≤ d → d ≤ fuel →
      ∃ r : Int, FindTextureSlot.loop self tag fuel index slot false = .ok r ∧
        ((r = slot ∧ ∀ i : Fin maxTextures, index ≤ i.val → (i.val : Int) < self.m_loadedTextures →
            (self.m_textureIDs i).tag ≠ tag)
         ∨ (∃ i : Fin maxTextures, r = (i.val : Int) ∧ index ≤ i.val ∧
              (i.val : Int) < self.m_loadedTextures ∧ (self.m_textureIDs i).tag = tag ∧
              ∀ j : Fin maxTextures, index ≤ j.val → j.val < i.val →
                (self.m_textureIDs j).tag ≠ tag)) := by
  intro d
  induction d with
  | zero =>
    intro fuel index slot hd _
    have hc : ¬ ((index : Int) < self.m_loadedTextures) := by omega
    refine ⟨slot, ?_, Or.inl ⟨rfl, fun i hi hlt => absurd (by omega) hc⟩⟩
    cases fuel <;> simp [FindTextureSlot.loop, hc]
  | succ d ih =>
    intro fuel index slot hd hfuel
    obtain ⟨fuel, rfl⟩ : ∃ f, fuel = f + 1 := ⟨fuel - 1, by omega⟩
    by_cases hc : (index : Int) < self.m_loadedTextures
    · have hidx : index < maxTextures := by omega
      by_cases ht : (self.m_textureIDs ⟨index, hidx⟩).tag = tag
      · refine ⟨index, ?_, Or.inr ⟨⟨index, hidx⟩, rfl, le_refl _, hc, ht,
          fun j h1 h2 => absurd (show j.val < index from h2) (by omega)⟩⟩
        simp [FindTextureSlot.loop, hc, hidx, ht, FindTextureSlot_loop_found]
      · obtain ⟨r, hr, hcase⟩ := ih fuel (index + 1) slot (by omega) (by omega)
        refine ⟨r, ?_, ?_⟩
        · simp [FindTextureSlot.loop, hc, hidx, ht, hr]
        · have hstep : ∀ j : Fin maxTextures, index ≤ j.val → ¬ (index + 1 ≤ j.val) →
              (self.m_textureIDs j).tag ≠ tag := by
            intro j h1 h2
            have : j = ⟨index, hidx⟩ := Fin.ext (by simp; omega)
            rw [this]; exact ht
          rcases hcase with ⟨h1, h2⟩ | ⟨i, h1, h2, h3, h4, h5⟩
          · refine Or.inl ⟨h1, fun i hi hlt => ?_⟩
            by_cases hi1 : index + 1 ≤ i.val
            · exact h2 i hi1 hlt
            · exact hstep i hi hi1
          · refine Or.inr ⟨i, h1, by omega, h3, h4, fun j hj1 hj2 => ?_⟩
            by_cases hj : index + 1 ≤ j.val
            · exact h5 j hj hj2
            · exact hstep j hj1 hj
    · refine ⟨slot, ?_, Or.inl ⟨rfl, fun i hi hlt => absurd (by omega) hc⟩⟩
      simp [FindTextureSlot.loop, hc]

theorem FindTextureSlot_ok {K : Type} (self : SceneManager K) (tag : String)
    (hcap : self.m_loadedTextures ≤ maxTextures) :
    ∃ r : Int, FindTextureSlot self tag = .ok r ∧
      ((r = -1 ∧ ∀ i : Fin maxTextures, (i.val : Int) < self.m_loadedTextures →
          (self.m_textureIDs i).tag ≠ tag)
       ∨ (∃ i : Fin maxTextures, r = (i.val : Int) ∧
            (i.val : Int) < self.m_loadedTextures ∧ (self.m_textureIDs i).tag = tag ∧
            ∀ j : Fin maxTextures, j.val < i.val → (self.m_textureIDs j).tag ≠ tag)) := by
  obtain ⟨r, hr, hcase⟩ := FindTextureSlot_loop_spec self tag hcap
    (self.m_loadedTextures.toNat) (self.m_loadedTextures.toNat + 1) 0 (-1) (by omega) (by omega)
  refine ⟨r, hr, ?_⟩
  rcases hcase with ⟨h1, h2⟩ | ⟨i, h1, -, h3, h4, h5⟩
  · exact Or.inl ⟨h1, fun i hi => h2 i (Nat.zero_le _) hi⟩
  · exact Or.inr ⟨i, h1, h3, h4, fun j hj => h5 j (Nat.zero_le _) hj⟩

theorem FindTextureSlot_eq_of_first {K : Type} (self : SceneManager K) (tag : String)
    (hcap : self.m_loadedTextures ≤ maxTextures) (i : Fin maxTextures)
    (hi : (i.val : Int) < self.m_loadedTextures) (ht : (self.m_textureIDs i).tag = tag)
    (hfirst : ∀ j : Fin maxTextures, j.val < i.val → (self.m_textureIDs j).tag ≠ tag) :
    FindTextureSlot self tag = .ok (i.val : Int) := by
  obtain ⟨r, hr, hcase⟩ := FindTextureSlot_ok self tag hcap
  rcases hcase with ⟨-, h2⟩ | ⟨k, h1, h3, h4, h5⟩
  · exact absurd ht (h2 i hi)
  · have hki : k = i := by
      rcases Nat.lt_trichotomy k.val i.val with h | h | h
      · exact absurd h4 (hfirst k h)
      · exact Fin.ext h
      · exact absurd ht (h5 i h)
    rw [hr, h1, hki]

theorem TexturesExtend.refl {K : Type} (s : SceneManager K)
    (h : s.m_loadedTextures ≤ maxTextures) : TexturesExtend s s :=
  ⟨le_refl _, h, fun _ _ => rfl⟩

theorem TexturesExtend.trans {K : Type} {s1 s2 s3 : SceneManager K}
    (h12 : TexturesExtend s1 s2) (h23 : TexturesExtend s2 s3) : TexturesExtend s1 s3 :=
  ⟨le_trans h12.1 h23.1, h23.2.1, fun i hi => by
    rw [h23.2.2 i (lt_of_lt_of_le hi h12.1), h12.2.2 i hi]⟩

theorem CreateGLTexture.register_ok {K : Type} (self : SceneManager K) (textureID : Nat)
    (tag : String) (h0 : 0 ≤ self.m_loadedTextures) (h16 : self.m_loadedTextures < maxTextures) :
    CreateGLTexture.register self textureID tag =
      .ok { self with
            m_textureIDs :=
              Function.update self.m_textureIDs
                ⟨self.m_loadedTextures.toNat, by omega⟩ { ID := textureID, tag := tag }
            m_loadedTextures := self.m_loadedTextures + 1 } := by
  have h : 0 ≤ self.m_loadedTextures ∧ self.m_loadedTextures.toNat < maxTextures :=
    ⟨h0, by omega⟩
  simp [CreateGLTexture.register, h]

theorem CreateGLTexture.register_full {K : Type} (self : SceneManager K) (textureID : Nat)
    (tag : String) (h : ¬ (0 ≤ self.m_loadedTextures ∧ self.m_loadedTextures < maxTextures)) :
    CreateGLTexture.register self textureID tag = .error .outOfBounds := by
  have h2 : ¬ (0 ≤ self.m_loadedTextures ∧ self.m_loadedTextures.toNat < maxTextures) := by
    omega
  simp [CreateGLTexture.register, h2]

theorem CreateGLTexture_undecodable {K : Type} (stbi_load : String → Option StbImage)
    (self : SceneManager K) (gl : GLContext) (filename tag : String)
    (h : stbi_load filename = none) :
    CreateGLTexture stbi_load self gl filename tag = .ok (false, self, gl) := by
  simp [CreateGLTexture, h]

theorem CreateGLTexture_bad_channels {K : Type} (stbi_load : String → Option StbImage)
    (self : SceneManager K) (gl : GLContext) (filename tag : String) (image : StbImage)
    (h : stbi_load filename = some image) (h3 : image.colorChannels ≠ 3)
    (h4 : image.colorChannels ≠ 4) :
    CreateGLTexture stbi_load self gl filename tag =
      .ok (false, self, { generatedTextures := gl.generatedTextures + 1 }) := by
  simp [CreateGLTexture, h, h3, h4]

theorem CreateGLTexture_decodable {K : Type} (stbi_load : String → Option StbImage)
    (self : SceneManager K) (gl : GLContext) (filename tag : String) (image : StbImage)
    (h : stbi_load filename = some image)
    (hch : image.colorChannels = 3 ∨ image.colorChannels = 4) :
    CreateGLTexture stbi_load self gl filename tag =
      match CreateGLTexture.register self (gl.generatedTextures + 1) tag with
      | .ok self => .ok (true, self, { generatedTextures := gl.generatedTextures + 1 })
      | .error e => .error e := by
  rcases hch with h3 | h4
  · simp [CreateGLTexture, h, h3]
  · by_cases h3 : image.colorChannels = 3
    · simp [CreateGLTexture, h, h3]
    · simp [CreateGLTexture, h, h3, h4]

theorem decodes_cases (stbi_load : String → Option StbImage) (filename : String) :
    (decodes stbi_load filename = true ∧ ∃ image, stbi_load filename = some image ∧
        (image.colorChannels = 3 ∨ image.colorChannels = 4))
    ∨ (decodes stbi_load filename = false ∧
        (stbi_load filename = none ∨ ∃ image, stbi_load filename = some image ∧
          image.colorChannels ≠ 3 ∧ image.colorChannels ≠ 4)) := by
  unfold decodes
  cases h : stbi_load filename with
  | none => simp
  | some image =>
    by_cases h3 : image.colorChannels = 3
    · simp [h3]
    · by_cases h4 : image.colorChannels = 4
      · simp [h4]
      · simp [h3, h4]

theorem CreateGLTexture_inv {K : Type} (stbi_load : String → Option StbImage)
    (self self' : SceneManager K) (gl gl' : GLContext) (filename tag : String) (b : Bool)
    (h : CreateGLTexture stbi_load self gl filename tag = .ok (b, self', gl')) :
    (b = false ∧ decodes stbi_load filename = false ∧ self' = self)
    ∨ (b = true ∧ decodes stbi_load filename = true ∧
        ∃ (h0 : 0 ≤ self.m_loadedTextures) (h16 : self.m_loadedTextures < maxTextures),
          self' =
            { self with
              m_textureIDs :=
                Function.update self.m_textureIDs
                  ⟨self.m_loadedTextures.toNat, by omega⟩
                  { ID := gl.generatedTextures + 1, tag := tag }
              m_loadedTextures := self.m_loadedTextures + 1 }) := by
  rcases decodes_cases stbi_load filename with
    ⟨hd, image, himg, hch⟩ | ⟨hd, hnone | ⟨image, himg, h3, h4⟩⟩
  · rw [CreateGLTexture_decodable stbi_load self gl filename tag image himg hch] at h
    by_cases hc : 0 ≤ self.m_loadedTextures ∧ self.m_loadedTextures < maxTextures
    · rw [CreateGLTexture.register_ok self _ tag hc.1 hc.2] at h
      simp only [Except.ok.injEq, Prod.mk.injEq] at h
      exact Or.inr ⟨h.1.symm, hd, hc.1, hc.2, h.2.1.symm⟩
    · rw [CreateGLTexture.register_full self _ tag hc] at h
      simp at h
  · rw [CreateGLTexture_undecodable stbi_load self gl filename tag hnone] at h
    simp only [Except.ok.injEq, Prod.mk.injEq] at h
    exact Or.inl ⟨h.1.symm, hd, h.2.1.symm⟩
  · rw [CreateGLTexture_bad_channels stbi_load self gl filename tag image himg h3 h4] at h
    simp only [Except.ok.injEq, Prod.mk.injEq] at h
    exact Or.inl ⟨h.1.symm, hd, h.2.1.symm⟩

theorem CreateGLTexture_extends {K : Type} (stbi_load : String → Option StbImage)
    (self self' : SceneManager K) (gl gl' : GLContext) (filename tag : String) (b : Bool)
    (hcap : self.m_loadedTextures ≤ maxTextures)
    (h : CreateGLTexture stbi_load self gl filename tag = .ok (b, self', gl')) :
    TexturesExtend self self' := by
  have hmax : maxTextures = 16 := rfl
  rcases CreateGLTexture_inv stbi_load self self' gl gl' filename tag b h with
    ⟨-, -, e⟩ | ⟨-, -, h0, h16, e⟩
  · rw [e]
    exact TexturesExtend.refl self hcap
  · rw [e]
    refine ⟨by simp, by simp only; omega, fun i hi => ?_⟩
    have hne : i ≠ ⟨self.m_loadedTextures.toNat, by omega⟩ := by
      intro e
      have := congrArg Fin.val e
      simp only at this
      omega
    simp only [Function.update_noteq hne]

theorem CreateGLTextures_extends {K : Type} (stbi_load : String → Option StbImage) :
    ∀ (files : List (String × String)) (self self' : SceneManager K) (gl gl' : GLContext)
      (bs : List Bool), self.m_loadedTextures ≤ maxTextures →
      CreateGLTextures stbi_load self gl files = .ok (bs, self', gl') →
      TexturesExtend self self' := by
  intro files
  induction files with
  | nil =>
    intro self self' gl gl' bs hcap h
    simp only [CreateGLTextures, Except.ok.injEq, Prod.mk.injEq] at h
    rw [← h.2.1]
    exact TexturesExtend.refl self hcap
  | cons f rest ih =>
    intro self self' gl gl' bs hcap h
    obtain ⟨filename, tag⟩ := f
    simp only [CreateGLTextures] at h
    cases h1 : CreateGLTexture stbi_load self gl filename tag with
    | error e => rw [h1] at h; simp at h
    | ok r =>
      obtain ⟨b, s1, g1⟩ := r
      rw [h1] at h
      simp only at h
      have e1 := CreateGLTexture_extends stbi_load self s1 gl g1 filename tag b hcap h1
      cases h2 : CreateGLTextures stbi_load s1 g1 rest with
      | error e => rw [h2] at h; simp at h
      | ok r2 =>
        obtain ⟨bs2, s2, g2⟩ := r2
        rw [h2] at h
        simp only [Except.ok.injEq, Prod.mk.injEq] at h
        rw [← h.2.1]
        exact e1.trans (ih s1 s2 g1 g2 bs2 e1.2.1 h2)

theorem CreateGLTextures_count {K : Type} (stbi_load : String → Option StbImage) :
    ∀ (files : List (String × String)) (self : SceneManager K) (gl : GLContext),
      0 ≤ self.m_loadedTextures →
      self.m_loadedTextures + ((files.filter (fun f => decodes stbi_load f.1)).length : Int)
        ≤ maxTextures →
      ∃ (self' : SceneManager K) (gl' : GLContext),
        CreateGLTextures stbi_load self gl files
          = .ok (files.map (fun f => decodes stbi_load f.1), self', gl') ∧
        self'.m_loadedTextures = self.m_loadedTextures
          + ((files.filter (fun f => decodes stbi_load f.1)).length : Int) ∧
        self'.m_objectMaterials = self.m_objectMaterials ∧
        self'.m_pShaderManager = self.m_pShaderManager := by
  intro files
  induction files with
  | nil =>
    intro self gl _ _
    exact ⟨self, gl, rfl, by simp, rfl, rfl⟩
  | cons f rest ih =>
    intro self gl h0 hcap
    obtain ⟨filename, tag⟩ := f
    rcases decodes_cases stbi_load filename with
      ⟨hd, image, himg, hch⟩ | ⟨hd, hbad⟩
    · simp only [List.filter_cons, hd, if_true, List.length_cons, Nat.cast_add,
        Nat.cast_one] at hcap ⊢
      have h16 : self.m_loadedTextures < maxTextures := by
        have : (0 : Int) ≤ ((rest.filter (fun f => decodes stbi_load f.1)).length : Int) :=
          Int.ofNat_nonneg _
        omega
      have h1 := CreateGLTexture_decodable stbi_load self gl filename tag image himg hch
      obtain ⟨s1, hs1, hc1, hm1, hp1⟩ : ∃ s1 : SceneManager K,
          CreateGLTexture.register self (gl.generatedTextures + 1) tag = .ok s1 ∧
          s1.m_loadedTextures = self.m_loadedTextures + 1 ∧
          s1.m_objectMaterials = self.m_objectMaterials ∧
          s1.m_pShaderManager = self.m_pShaderManager :=
        ⟨_, CreateGLTexture.register_ok self _ tag h0 h16, rfl, rfl, rfl⟩
      rw [hs1] at h1
      obtain ⟨s2, g2, hr, hc, hm, hs⟩ := ih s1 { generatedTextures := gl.generatedTextures + 1 }
        (by omega) (by omega)
      refine ⟨s2, g2, ?_, by rw [hc]; omega, hm.trans hm1, hs.trans hp1⟩
      simp only [CreateGLTextures, h1, hr, List.map_cons, hd]
    · simp only [List.filter_cons, hd, Bool.false_eq_true, if_false] at hcap ⊢
      have h1 : CreateGLTexture stbi_load self gl filename tag
          = .ok (false, self, (if stbi_load filename = none then gl
              else { generatedTextures := gl.generatedTextures + 1 })) := by
        rcases hbad with hnone | ⟨image, himg, h3, h4⟩
        · rw [CreateGLTexture_undecodable stbi_load self gl filename tag hnone]; simp [hnone]
        · rw [CreateGLTexture_bad_channels stbi_load self gl filename tag image himg h3 h4]
          simp [himg]
      obtain ⟨s2, g2, hr, hc, hm, hs⟩ := ih self
        (if stbi_load filename = none then gl
          else { generatedTextures := gl.generatedTextures + 1 }) h0 hcap
      refine ⟨s2, g2, ?_, hc, hm, hs⟩
      simp only [CreateGLTextures, h1, hr, List.map_cons, hd]

theorem FindTextureSlot_of_extends {K : Type} (s1 s2 : SceneManager K) (tag : String)
    (hext : TexturesExtend s1 s2) (i : Fin maxTextures)
    (hi : (i.val : Int) < s1.m_loadedTextures) (ht : (s1.m_textureIDs i).tag = tag)
    (hfirst : ∀ j : Fin maxTextures, j.val < i.val → (s1.m_textureIDs j).tag ≠ tag) :
    FindTextureSlot s2 tag = .ok (i.val : Int) := by
  apply FindTextureSlot_eq_of_first s2 tag hext.2.1 i (lt_of_lt_of_le hi hext.1)
  · rw [hext.2.2 i hi]; exact ht
  · intro j hj
    rw [hext.2.2 j (by omega)]
    exact hfirst j hj

theorem CreateGLTextures_loaded_count {K : Type} (stbi_load : String → Option StbImage) :
    ∀ (files : List (String × String)) (self self' : SceneManager K) (gl gl' : GLContext)
      (bs : List Bool),
      CreateGLTextures stbi_load self gl files = .ok (bs, self', gl') →
      self'.m_loadedTextures = self.m_loadedTextures + (bs.count true : Int) := by
  intro files
  induction files with
  | nil =>
    intro self self' gl gl' bs h
    simp only [CreateGLTextures, Except.ok.injEq, Prod.mk.injEq] at h
    rw [← h.1, ← h.2.1]; simp
  | cons f rest ih =>
    intro self self' gl gl' bs h
    obtain ⟨filename, tag⟩ := f
    simp only [CreateGLTextures] at h
    cases h1 : CreateGLTexture stbi_load self gl filename tag with
    | error e => rw [h1] at h; simp at h
    | ok r =>
      obtain ⟨b, s1, g1⟩ := r
      rw [h1] at h
      simp only at h
      cases h2 : CreateGLTextures stbi_load s1 g1 rest with
      | error e => rw [h2] at h; simp at h
      | ok r2 =>
        obtain ⟨bs2, s2, g2⟩ := r2
        rw [h2] at h
        simp only [Except.ok.injEq, Prod.mk.injEq] at h
        rw [← h.1, ← h.2.1, ih s1 s2 g1 g2 bs2 h2]
        rcases CreateGLTexture_inv stbi_load self s1 gl g1 filename tag b h1 with
          ⟨hb, -, e⟩ | ⟨hb, -, h0, h16, e⟩
        · rw [e, hb]; simp
        · rw [e, hb]; simp; omega

/-- C4, counterexample: on a registry that already holds one texture tagged `"brick"`, a
further successful `CreateGLTexture(…, "brick")` brings the loaded count to 2, yet
`FindTextureSlot("brick")` afterwards returns slot 0, not 1, the number of loads made
before this one. -/
theorem FindTextureSlot_duplicate_tag_returns_earlier_slot :
    oneBrick.m_loadedTextures = 1
    ∧ (CreateGLTexture exampleDecoder oneBrick { generatedTextures := 1 }
          "brick2.jpg" "brick").toOption.map
        (fun r => (r.1, r.2.1.m_loadedTextures, FindTextureSlot r.2.1 "brick"))
      = some (true, 2, .ok 0) :=
  ⟨rfl, rfl⟩

/-- C4, amended: if `CreateGLTexture(path, tag)` succeeds and no entry loaded before it
carries `tag`, then the registry had a free cell (`0 ≤ m_loadedTextures < 16`), the loaded
count before the call is the number of successful loads since the count was zero, and
`FindTextureSlot(tag)` afterwards returns exactly that count, a slot in `[0, 16)`; the
same slot is returned after any further sequence of `CreateGLTexture` calls that returns. -/
theorem CreateGLTexture_fresh_tag_slot_is_registration_order {K : Type}
    (stbi_load : String → Option StbImage) (self self' : SceneManager K)
    (gl gl' : GLContext) (filename tag : String)
    (hload : CreateGLTexture stbi_load self gl filename tag = .ok (true, self', gl'))
    (hfresh : ∀ i : Fin maxTextures, (i.val : Int) < self.m_loadedTextures →
      (self.m_textureIDs i).tag ≠ tag) :
    0 ≤ self.m_loadedTextures ∧ self.m_loadedTextures < 16
    ∧ FindTextureSlot self' tag = .ok self.m_loadedTextures
    ∧ (∀ (files : List (String × String)) (bs : List Bool) (self2 : SceneManager K)
        (gl2 : GLContext),
        CreateGLTextures stbi_load self' gl' files = .ok (bs, self2, gl2) →
        FindTextureSlot self2 tag = .ok self.m_loadedTextures)
    ∧ (∀ (before : List (String × String)) (bs : List Bool) (init : SceneManager K)
        (gl0 : GLContext), init.m_loadedTextures = 0 →
        CreateGLTextures stbi_load init gl0 before = .ok (bs, self, gl) →
        self.m_loadedTextures = (bs.count true : Int)) := by
  have hmax : maxTextures = 16 := rfl
  rcases CreateGLTexture_inv stbi_load self self' gl gl' filename tag true hload with
    ⟨hb, -, -⟩ | ⟨-, -, h0, h16, e⟩
  · exact absurd hb (by decide)
  have hidx : self.m_loadedTextures.toNat < maxTextures := by omega
  have hcast : ((self.m_loadedTextures.toNat : Nat) : Int) = self.m_loadedTextures :=
    Int.toNat_of_nonneg h0
  have hi : (((⟨self.m_loadedTextures.toNat, hidx⟩ : Fin maxTextures).val : Nat) : Int)
      < self'.m_loadedTextures := by
    rw [e]; simp only; omega
  have ht : (self'.m_textureIDs ⟨self.m_loadedTextures.toNat, hidx⟩).tag = tag := by
    rw [e]; simp
  have hfirst : ∀ j : Fin maxTextures, j.val < self.m_loadedTextures.toNat →
      (self'.m_textureIDs j).tag ≠ tag := by
    intro j hj
    have hne : j ≠ ⟨self.m_loadedTextures.toNat, hidx⟩ := by
      intro ej
      have := congrArg Fin.val ej
      simp only at this
      omega
    rw [e]
    simp only [Function.update_noteq hne]
    exact hfresh j (by omega)
  have hcap' : self'.m_loadedTextures ≤ maxTextures := by
    rw [e]; simp only; omega
  refine ⟨h0, by omega, ?_, ?_, ?_⟩
  · have := FindTextureSlot_eq_of_first self' tag hcap' ⟨self.m_loadedTextures.toNat, hidx⟩
      hi ht hfirst
    simpa only [hcast] using this
  · intro files bs self2 gl2 hmore
    have hext := CreateGLTextures_extends stbi_load files self' self2 gl' gl2 bs hcap' hmore
    have := FindTextureSlot_of_extends self' self2 tag hext
      ⟨self.m_loadedTextures.toNat, hidx⟩ hi ht hfirst
    simpa only [hcast] using this
  · intro before bs init gl0 hinit hbefore
    have := CreateGLTextures_loaded_count stbi_load before init self gl0 gl bs hbefore
    rw [this, hinit]; simp

/-- Witness for C4 (amended): loading `"wood.jpg"` under the fresh tag `"wood"` into the
registry that holds `"floor"` and `"mouse"` succeeds and yields slot 2. -/
theorem CreateGLTexture_fresh_tag_slot_is_registration_order_witness :
    CreateGLTexture exampleDecoder twoTextures { generatedTextures := 2 } "wood.jpg" "wood"
      = .ok (true, threeTextures, { generatedTextures := 3 })
    ∧ (∀ i : Fin maxTextures, (i.val : Int) < twoTextures.m_loadedTextures →
        (twoTextures.m_textureIDs i).tag ≠ "wood")
    ∧ FindTextureSlot threeTextures "wood" = .ok 2 :=
  ⟨rfl, by decide,
    (CreateGLTexture_fresh_tag_slot_is_registration_order exampleDecoder twoTextures
      threeTextures { generatedTextures := 2 } { generatedTextures := 3 } "wood.jpg" "wood"
      rfl (by decide)).2.2.1⟩

/-- C5: for a registry of `n = m_loadedTextures ≤ 16` loaded textures and every tag,
`FindTextureSlot(tag)` returns: either the sentinel `-1`, and then no entry among the first
`n` carries the tag; or an index `i < n` whose entry carries the tag while no entry before
`i` does (first match wins).  It returns `-1` exactly when no entry among the first `n`
has the tag.  The method assigns no member, so the registry is the same after the call. -/
theorem FindTextureSlot_first_match_or_sentinel {K : Type} (self : SceneManager K)
    (tag : String) (hcap : self.m_loadedTextures ≤ 16) :
    ∃ r : Int, FindTextureSlot self tag = .ok r
      ∧ ((r = -1 ∧ ∀ i : Fin maxTextures, (i.val : Int) < self.m_loadedTextures →
            (self.m_textureIDs i).tag ≠ tag)
         ∨ (∃ i : Fin maxTextures, r = (i.val : Int) ∧
              (i.val : Int) < self.m_loadedTextures ∧ (self.m_textureIDs i).tag = tag ∧
              ∀ j : Fin maxTextures, j.val < i.val → (self.m_textureIDs j).tag ≠ tag))
      ∧ (r = -1 ↔ ∀ i : Fin maxTextures, (i.val : Int) < self.m_loadedTextures →
            (self.m_textureIDs i).tag ≠ tag) := by
  obtain ⟨r, hr, hcase⟩ := FindTextureSlot_ok self tag hcap
  refine ⟨r, hr, hcase, ?_⟩
  rcases hcase with ⟨h1, h2⟩ | ⟨i, h1, h3, h4, -⟩
  · exact ⟨fun _ => h2, fun _ => h1⟩
  · constructor
    · intro hneg
      omega
    · intro hall
      exact absurd h4 (hall i h3)

/-- Witness for C5: in the registry holding `"floor"` and `"mouse"`, `"mouse"` is found in
slot 1 and `"wood"` is not found. -/
theorem FindTextureSlot_first_match_or_sentinel_witness :
    twoTextures.m_loadedTextures ≤ 16
    ∧ FindTextureSlot twoTextures "mouse" = .ok 1
    ∧ FindTextureSlot twoTextures "wood" = .ok (-1)
    ∧ ∃ r : Int, FindTextureSlot twoTextures "mouse" = .ok r
        ∧ (r = -1 ↔ ∀ i : Fin maxTextures, (i.val : Int) < twoTextures.m_loadedTextures →
            (twoTextures.m_textureIDs i).tag ≠ "mouse") :=
  ⟨by decide, rfl, rfl,
    (FindTextureSlot_first_match_or_sentinel twoTextures "mouse" (by decide)).imp
      (fun _ h => ⟨h.1, h.2.2⟩)⟩

theorem count_map_decodes (stbi_load : String → Option StbImage) :
    ∀ files : List (String × String),
      (files.map (fun f => decodes stbi_load f.1)).count true
          = (files.filter (fun f => decodes stbi_load f.1)).length
      ∧ (files.map (fun f => decodes stbi_load f.1)).count false
          = files.length - (files.filter (fun f => decodes stbi_load f.1)).length := by
  intro files
  induction files with
  | nil => simp
  | cons f rest ih =>
    have hle := List.length_filter_le (fun f => decodes stbi_load f.1) rest
    cases hd : decodes stbi_load f.1
    · simp [List.filter_cons, hd, ih.1, ih.2]; omega
    · simp [List.filter_cons, hd, ih.1, ih.2]

/-- C6: `CreateGLTexture` returns false and leaves the scene manager (texture entries and
loaded count included) unchanged when the image cannot be decoded, and when it decodes
with a channel count other than 3 or 4; when the image decodes with 3 or 4 channels and
the registry has a free cell (`0 ≤ m_loadedTextures < 16`) it returns true, writes exactly
the cell `m_loadedTextures` with the new entry and increments the count.  Hence a
preparation that starts with no loaded texture and attempts three files of which exactly
two decode ends, without fault, with exactly two registered textures, two `true` results
and one `false`. -/
theorem CreateGLTexture_registers_exactly_decodable_images {K : Type}
    (stbi_load : String → Option StbImage) (self : SceneManager K) (gl : GLContext)
    (filename tag : String) :
    (stbi_load filename = none →
      CreateGLTexture stbi_load self gl filename tag = .ok (false, self, gl))
    ∧ (∀ image : StbImage, stbi_load filename = some image →
        image.colorChannels ≠ 3 → image.colorChannels ≠ 4 →
        CreateGLTexture stbi_load self gl filename tag =
          .ok (false, self, { generatedTextures := gl.generatedTextures + 1 }))
    ∧ (∀ image : StbImage, stbi_load filename = some image →
        image.colorChannels = 3 ∨ image.colorChannels = 4 →
        ∀ (_ : 0 ≤ self.m_loadedTextures) (h16 : self.m_loadedTextures < 16),
        CreateGLTexture stbi_load self gl filename tag =
          .ok (true,
            { self with
              m_textureIDs :=
                Function.update self.m_textureIDs
                  ⟨self.m_loadedTextures.toNat, by show _ < 16; omega⟩
                  { ID := gl.generatedTextures + 1, tag := tag }
              m_loadedTextures := self.m_loadedTextures + 1 },
            { generatedTextures := gl.generatedTextures + 1 }))
    ∧ (∀ files : List (String × String), self.m_loadedTextures = 0 → files.length = 3 →
        (files.filter (fun f => decodes stbi_load f.1)).length = 2 →
        ∃ (bs : List Bool) (self' : SceneManager K) (gl' : GLContext),
          CreateGLTextures stbi_load self gl files = .ok (bs, self', gl')
          ∧ self'.m_loadedTextures = 2 ∧ bs.count true = 2 ∧ bs.count false = 1) := by
  refine ⟨CreateGLTexture_undecodable stbi_load self gl filename tag,
    fun image h h3 h4 => CreateGLTexture_bad_channels stbi_load self gl filename tag image h h3 h4,
    ?_, ?_⟩
  · intro image himg hch h0 h16
    rw [CreateGLTexture_decodable stbi_load self gl filename tag image himg hch,
      CreateGLTexture.register_ok self _ tag h0 h16]
  · intro files hzero hlen hvalid
    obtain ⟨self', gl', hr, hc, -, -⟩ := CreateGLTextures_count stbi_load files self gl
      (by omega) (by rw [hzero, hvalid]; decide)
    have hcount := count_map_decodes stbi_load files
    refine ⟨_, self', gl', hr, by rw [hc, hzero, hvalid]; rfl, ?_, ?_⟩
    · rw [hcount.1, hvalid]
    · rw [hcount.2, hvalid, hlen]

/-- Witness for C6: from the empty registry, loading `"floor.jpg"`, the undecodable
`"missing.png"` and `"mouse.jpg"` ends with exactly two registered textures. -/
theorem CreateGLTexture_registers_exactly_decodable_images_witness :
    emptyRegistry.m_loadedTextures = 0
    ∧ exampleDecoder "missing.png" = none
    ∧ ∃ (bs : List Bool) (self' : SceneManager ℚ) (gl' : GLContext),
        CreateGLTextures exampleDecoder emptyRegistry { generatedTextures := 0 }
            [("floor.jpg", "floor"), ("missing.png", "lost"), ("mouse.jpg", "mouse")]
          = .ok (bs, self', gl')
        ∧ self'.m_loadedTextures = 2 ∧ bs.count true = 2 ∧ bs.count false = 1 :=
  ⟨rfl, rfl,
    (CreateGLTexture_registers_exactly_decodable_images exampleDecoder emptyRegistry
      { generatedTextures := 0 } "missing.png" "lost").2.2.2
      [("floor.jpg", "floor"), ("missing.png", "lost"), ("mouse.jpg", "mouse")]
      rfl rfl (by decide)⟩

/-! ### Material registry -/

theorem FindMaterial_loop_found {K : Type} (self : SceneManager K) (tag : String)
    (fuel index : Nat) (material : OBJECT_MATERIAL K) :
    FindMaterial.loop self tag fuel index true material = .ok material := by
  cases fuel <;> simp [FindMaterial.loop]

theorem FindMaterial_loop_spec {K : Type} (self : SceneManager K) (tag : String) :
    ∀ (d fuel index : Nat) (material : OBJECT_MATERIAL K),
      self.m_objectMaterials.length - index ≤ d → d ≤ fuel →
      FindMaterial.loop self tag fuel index false material =
        .ok (match (self.m_objectMaterials.drop index).find? (fun m => decide (m.tag = tag)) with
             | some entry => material.assignedFrom entry
             | none => material) := by
  intro d
  induction d with
  | zero =>
    intro fuel index material hd _
    have hc : ¬ (index < self.m_objectMaterials.length) := by omega
    have hdrop : self.m_objectMaterials.drop index = [] := List.drop_eq_nil_of_le (by omega)
    rw [hdrop]
    cases fuel <;> simp [FindMaterial.loop, hc]
  | succ d ih =>
    intro fuel index material hd hfuel
    obtain ⟨fuel, rfl⟩ : ∃ f, fuel = f + 1 := ⟨fuel - 1, by omega⟩
    by_cases hc : index < self.m_objectMaterials.length
    · rw [List.drop_eq_getElem_cons hc, List.find?_cons]
      by_cases ht : (self.m_objectMaterials[index]).tag = tag
      · simp [FindMaterial.loop, hc, ht, FindMaterial_loop_found,
          OBJECT_MATERIAL.assignedFrom]
      · have := ih fuel (index + 1) material (by omega) (by omega)
        simp [FindMaterial.loop, hc, ht, this]
    · have hdrop : self.m_objectMaterials.drop index = [] := List.drop_eq_nil_of_le (by omega)
      rw [hdrop]
      simp [FindMaterial.loop, hc]

theorem FindMaterial_eq {K : Type} (self : SceneManager K) (tag : String)
    (material : OBJECT_MATERIAL K) :
    FindMaterial self tag material =
      if self.m_objectMaterials.length = 0 then .ok (false, material)
      else .ok (true,
        match self.m_objectMaterials.find? (fun m => decide (m.tag = tag)) with
        | some entry => material.assignedFrom entry
        | none => material) := by
  unfold FindMaterial
  split
  · rfl
  · rw [FindMaterial_loop_spec self tag self.m_objectMaterials.length _ 0 material
      (by omega) (by omega)]
    simp

theorem find?_none_of_no_tag {K : Type} (l : List (OBJECT_MATERIAL K)) (tag : String)
    (h : ∀ m ∈ l, m.tag ≠ tag) : l.find? (fun m => decide (m.tag = tag)) = none := by
  rw [List.find?_eq_none]
  intro m hm
  simpa using h m hm

theorem find?_first {K : Type} (pre post : List (OBJECT_MATERIAL K))
    (entry : OBJECT_MATERIAL K) (tag : String) (hpre : ∀ m ∈ pre, m.tag ≠ tag)
    (he : entry.tag = tag) :
    (pre ++ entry :: post).find? (fun m => decide (m.tag = tag)) = some entry := by
  rw [List.find?_append, find?_none_of_no_tag pre tag hpre]
  simp [he]

theorem FindMaterial_no_match {K : Type} (self : SceneManager K) (tag : String)
    (material : OBJECT_MATERIAL K) (hno : ∀ m ∈ self.m_objectMaterials, m.tag ≠ tag) :
    FindMaterial self tag material
      = .ok (!self.m_objectMaterials.isEmpty, material) := by
  rw [FindMaterial_eq, find?_none_of_no_tag _ tag hno]
  cases h : self.m_objectMaterials with
  | nil => simp
  | cons a l => simp

theorem FindMaterial_true_of_nonempty {K : Type} (self : SceneManager K)
    (tag : String) (material : OBJECT_MATERIAL K) (hne : self.m_objectMaterials ≠ [])
    (hno : ∀ m ∈ self.m_objectMaterials, m.tag ≠ tag) :
    FindMaterial self tag material = .ok (true, material) := by
  rw [FindMaterial_no_match self tag material hno]
  cases h : self.m_objectMaterials with
  | nil => exact absurd h hne
  | cons a l => simp

/-- C7 (the code departs from the claim): on a non-empty material registry in which no
record carries `tag`, `FindMaterial(tag, out)` nevertheless returns `true` (line 246
returns the literal `true`, not `bFound`), with the output record untouched; so "found"
is reported although no record has the tag. -/
theorem FindMaterial_reports_found_without_match {K : Type} (self : SceneManager K)
    (tag : String) (material : OBJECT_MATERIAL K) (hne : self.m_objectMaterials ≠ [])
    (hno : ∀ m ∈ self.m_objectMaterials, m.tag ≠ tag) :
    FindMaterial self tag material = .ok (true, material) :=
  FindMaterial_true_of_nonempty self tag material hne hno

/-- Witness for C7: `FindMaterial("nonexistent", out)` on a registry holding `"porcelain"`
and `"gold"` returns `true`. -/
theorem FindMaterial_reports_found_without_match_witness :
    exampleMaterials.m_objectMaterials ≠ []
    ∧ (∀ m ∈ exampleMaterials.m_objectMaterials, m.tag ≠ "nonexistent")
    ∧ FindMaterial exampleMaterials "nonexistent" exampleOutput = .ok (true, exampleOutput) :=
  ⟨by decide, by decide,
    FindMaterial_reports_found_without_match exampleMaterials "nonexistent" exampleOutput
      (by decide) (by decide)⟩

/-- C8: for every material registry and every tag that no record carries,
`FindMaterial(tag, out)` returns with the output record equal, in every field, to its
value before the call; and when the registry is `pre ++ entry :: post` with `entry` the
first record carrying the tag, the call returns with the five value fields of the output
set to those of `entry` (whatever `post` holds, so later duplicates are shadowed) and the
output's own `tag` unchanged. -/
theorem FindMaterial_output_record {K : Type} (self : SceneManager K) (tag : String)
    (material : OBJECT_MATERIAL K) :
    ((∀ m ∈ self.m_objectMaterials, m.tag ≠ tag) →
      ∃ b : Bool, FindMaterial self tag material = .ok (b, material))
    ∧ (∀ (pre post : List (OBJECT_MATERIAL K)) (entry : OBJECT_MATERIAL K),
        self.m_objectMaterials = pre ++ entry :: post →
        (∀ m ∈ pre, m.tag ≠ tag) → entry.tag = tag →
        FindMaterial self tag material =
          .ok (true,
            { ambientColor := entry.ambientColor
              ambientStrength := entry.ambientStrength
              diffuseColor := entry.diffuseColor
              specularColor := entry.specularColor
              shininess := entry.shininess
              tag := material.tag })) := by
  constructor
  · intro hno
    exact ⟨_, FindMaterial_no_match self tag material hno⟩
  · intro pre post entry hsplit hpre he
    rw [FindMaterial_eq, hsplit, find?_first pre post entry tag hpre he]
    simp [OBJECT_MATERIAL.assignedFrom]

/-- Witness for C8: in the registry `porcelain, gold (shininess 51), gold (shininess 99)`
the lookup of `"gold"` yields the fields of the first `gold` record, and the lookup of
`"nonexistent"` leaves the output record as it was. -/
theorem FindMaterial_output_record_witness :
    (∀ m ∈ exampleMaterials.m_objectMaterials, m.tag ≠ "nonexistent")
    ∧ (∃ b : Bool,
        FindMaterial exampleMaterials "nonexistent" exampleOutput = .ok (b, exampleOutput))
    ∧ exampleMaterials.m_objectMaterials
        = [exampleMaterial "porcelain" 50] ++ exampleMaterial "gold" 51
            :: [exampleMaterial "gold" 99]
    ∧ FindMaterial exampleMaterials "gold" exampleOutput
        = .ok (true, { exampleMaterial "gold" 51 with tag := "" }) :=
  ⟨by decide,
    (FindMaterial_output_record exampleMaterials "nonexistent" exampleOutput).1 (by decide),
    rfl,
    (FindMaterial_output_record exampleMaterials "gold" exampleOutput).2
      [exampleMaterial "porcelain" 50] [exampleMaterial "gold" 99] (exampleMaterial "gold" 51)
      rfl (by decide) rfl⟩

/-- C9 (the code departs from the claim): with a non-empty material registry in which no
record carries `materialTag`, `SetShaderMaterial(materialTag)` does upload: `FindMaterial`
returns `true`, and all five `material.*` uniforms are overwritten with the members of the
uninitialised local record. -/
theorem SetShaderMaterial_uploads_for_missing_tag {K : Type}
    (indeterminate : OBJECT_MATERIAL K) (self : SceneManager K) (sm : ShaderManager K)
    (materialTag : String) (hne : self.m_objectMaterials ≠ [])
    (hno : ∀ m ∈ self.m_objectMaterials, m.tag ≠ materialTag) :
    SetShaderMaterial indeterminate { self with m_pShaderManager := some sm } materialTag =
      .ok { self with
            m_pShaderManager := some (ShaderManager.mk
              (("material.shininess", .float indeterminate.shininess)
                :: ("material.specularColor", .vec3 indeterminate.specularColor)
                :: ("material.diffuseColor", .vec3 indeterminate.diffuseColor)
                :: ("material.ambientStrength", .float indeterminate.ambientStrength)
                :: ("material.ambientColor", .vec3 indeterminate.ambientColor)
                :: sm.uniforms)) } := by
  have hlen : 0 < self.m_objectMaterials.length := List.length_pos.mpr hne
  have hfind := FindMaterial_true_of_nonempty
    { self with m_pShaderManager := some sm } materialTag
    { indeterminate with tag := "" } hne hno
  unfold SetShaderMaterial
  simp only [hlen, gt_iff_lt, if_true, hfind, ShaderManager.setVec3Value,
    ShaderManager.setFloatValue, ShaderManager.upload]

/-- Witness for C9: the shader holds shininess 50 from the previous object; after
`SetShaderMaterial("nonexistent")` it holds the indeterminate value (here 7). -/
theorem SetShaderMaterial_uploads_for_missing_tag_witness :
    exampleMaterials.m_objectMaterials ≠ []
    ∧ (∀ m ∈ exampleMaterials.m_objectMaterials, m.tag ≠ "nonexistent")
    ∧ exampleMaterials.m_pShaderManager.bind (fun m => m.uniform? "material.shininess")
        = some (.float 50)
    ∧ (SetShaderMaterial exampleOutput exampleMaterials "nonexistent").toOption.map
          (fun s => s.m_pShaderManager.bind (fun m => m.uniform? "material.shininess"))
        = some (some (.float 7)) := by
  refine ⟨by decide, by decide, rfl, ?_⟩
  have h := SetShaderMaterial_uploads_for_missing_tag exampleOutput exampleMaterials
    { uniforms := [("material.shininess", .float 50)] } "nonexistent" (by decide) (by decide)
  have e : ({ exampleMaterials with
      m_pShaderManager := some { uniforms := [("material.shininess", .float 50)] } }
        : SceneManager ℚ) = exampleMaterials := rfl
  rw [e] at h
  rw [h]
  rfl

/-- C10 (the code departs from the claim): on a registry that already holds 16 textures, a
further `CreateGLTexture` with a decodable 3-channel image is not rejected: it reaches the
write to `m_textureIDs[16]`, outside the 16-cell array.  Seventeen successful loads in a
row from an empty registry end the same way, the first sixteen having filled the array. -/
theorem CreateGLTexture_full_registry_writes_out_of_bounds :
    fullRegistry.m_loadedTextures = 16
    ∧ exampleDecoder "extra.jpg" = some { width := 4, height := 4, colorChannels := 3 }
    ∧ CreateGLTexture exampleDecoder fullRegistry { generatedTextures := 16 }
          "extra.jpg" "extra" = .error .outOfBounds
    ∧ (CreateGLTextures exampleDecoder emptyRegistry { generatedTextures := 0 }
          ((List.range 16).map (fun i => ("tex.jpg", toString i)))).toOption.map
        (fun r => (r.1, r.2.1.m_loadedTextures)) = some (List.replicate 16 true, 16)
    ∧ CreateGLTextures exampleDecoder emptyRegistry { generatedTextures := 0 }
          ((List.range 17).map (fun i => ("tex.jpg", toString i))) = .error .outOfBounds :=
  ⟨rfl, rfl, rfl, rfl, rfl⟩

/-! ### `SetShaderTexture` -/

theorem FindTextureSlot_missing {K : Type} (self : SceneManager K) (tag : String)
    (hcap : self.m_loadedTextures ≤ maxTextures)
    (hmiss : ∀ i : Fin maxTextures, (i.val : Int) < self.m_loadedTextures →
      (self.m_textureIDs i).tag ≠ tag) :
    FindTextureSlot self tag = .ok (-1) := by
  obtain ⟨r, hr, hcase⟩ := FindTextureSlot_ok self tag hcap
  rcases hcase with ⟨h1, -⟩ | ⟨i, -, h3, h4, -⟩
  · rw [hr, h1]
  · exact absurd h4 (hmiss i h3)

theorem FindTextureSlot_congr {K : Type} (s1 s2 : SceneManager K) (tag : String)
    (hc : s1.m_loadedTextures = s2.m_loadedTextures) (ht : s1.m_textureIDs = s2.m_textureIDs) :
    FindTextureSlot s1 tag = FindTextureSlot s2 tag := by
  have hloop : ∀ (fuel index : Nat) (slot : Int) (found : Bool),
      FindTextureSlot.loop s1 tag fuel index slot found
        = FindTextureSlot.loop s2 tag fuel index slot found := by
    intro fuel
    induction fuel with
    | zero => intro index slot found; simp [FindTextureSlot.loop, hc]
    | succ fuel ih => intro index slot found; simp [FindTextureSlot.loop, hc, ht, ih]
  simp [FindTextureSlot, hc, hloop]

theorem FindTextureSlot_shader_irrelevant {K : Type} (self : SceneManager K)
    (p : Option (ShaderManager K)) (tag : String) :
    FindTextureSlot { self with m_pShaderManager := p } tag = FindTextureSlot self tag :=
  FindTextureSlot_congr { self with m_pShaderManager := p } self tag rfl rfl

/-- C11, counterexample: the registry holds `"floor"` and `"mouse"` only; after
`SetShaderColor(255, 255, 255)` and `SetShaderTexture("wood")` the uniform `bUseTexture`
holds 1 (true), not false, and `objectTexture` holds the sentinel -1. -/
theorem SetShaderTexture_missing_tag_leaves_texture_flag_set :
    (∀ i : Fin maxTextures, (i.val : Int) < twoTextures.m_loadedTextures →
        (twoTextures.m_textureIDs i).tag ≠ "wood")
    ∧ (SetShaderTexture (SetShaderColor twoTextures 255 255 255) "wood").toOption.map
        (fun s => (s.m_pShaderManager.bind (fun m => m.uniform? "bUseTexture"),
          s.m_pShaderManager.bind (fun m => m.uniform? "objectTexture")))
      = some (some (.int 1), some (.sampler2D (-1))) :=
  ⟨by decide, rfl⟩

/-- C11, amended: for every registry within its array and every tag that none of the
loaded entries carries, an object step that calls `SetShaderColor` and then
`SetShaderTexture(tag)` (non-null shader manager) makes exactly four uploads:
`bUseTexture = 0`, `objectColor`, `bUseTexture = 1`, `objectTexture = -1`.  At the draw
call `bUseTexture` is therefore true, `objectTexture` holds the not-found sentinel -1 (no
slot of `[0, 16)`), and `objectColor` holds the clamped, normalised colour. -/
theorem SetShaderColor_then_SetShaderTexture_missing_tag
    (self : SceneManager ℚ) (sm : ShaderManager ℚ) (r g b a : Int) (tag : String)
    (hcap : self.m_loadedTextures ≤ 16)
    (hmiss : ∀ i : Fin maxTextures, (i.val : Int) < self.m_loadedTextures →
      (self.m_textureIDs i).tag ≠ tag) :
    SetShaderTexture (SetShaderColor { self with m_pShaderManager := some sm } r g b a) tag =
      .ok { self with
            m_pShaderManager := some (ShaderManager.mk
              (("objectTexture", .sampler2D (-1))
                :: ("bUseTexture", .int 1)
                :: ("objectColor",
                    .vec4 ⟨specChannel r, specChannel g, specChannel b, specChannel a⟩)
                :: ("bUseTexture", .int 0) :: sm.uniforms)) }
    ∧ (SetShaderTexture (SetShaderColor { self with m_pShaderManager := some sm } r g b a)
          tag).toOption.map
        (fun s => (s.m_pShaderManager.bind (fun m => m.uniform? "bUseTexture"),
          s.m_pShaderManager.bind (fun m => m.uniform? "objectTexture"),
          s.m_pShaderManager.bind (fun m => m.uniform? "objectColor")))
      = some (some (.int 1), some (.sampler2D (-1)),
          some (.vec4 ⟨specChannel r, specChannel g, specChannel b, specChannel a⟩)) := by
  have hfind : FindTextureSlot
      ({ self with
          m_pShaderManager := some (ShaderManager.mk
            (("objectColor",
                .vec4 ⟨specChannel r, specChannel g, specChannel b, specChannel a⟩)
              :: ("bUseTexture", .int 0) :: sm.uniforms)) } : SceneManager ℚ) tag
        = .ok (-1) := by
    rw [FindTextureSlot_shader_irrelevant]
    exact FindTextureSlot_missing self tag hcap hmiss
  have heq : SetShaderTexture
      (SetShaderColor { self with m_pShaderManager := some sm } r g b a) tag =
      .ok { self with
            m_pShaderManager := some (ShaderManager.mk
              (("objectTexture", .sampler2D (-1))
                :: ("bUseTexture", .int 1)
                :: ("objectColor",
                    .vec4 ⟨specChannel r, specChannel g, specChannel b, specChannel a⟩)
                :: ("bUseTexture", .int 0) :: sm.uniforms)) } := by
    rw [SetShaderColor_eq]
    simp only [SetShaderTexture, hfind, ShaderManager.setIntValue,
      ShaderManager.setSampler2DValue, ShaderManager.upload, g_UseTextureName,
      g_TextureValueName]
  refine ⟨heq, ?_⟩
  rw [heq]
  simp [Except.toOption, ShaderManager.uniform?, List.find?]

/-- Witness for C11 (amended): the registry holding `"floor"` and `"mouse"`, the colour
`(255, 255, 255)` and the missing tag `"wood"`. -/
theorem SetShaderColor_then_SetShaderTexture_missing_tag_witness :
    twoTextures.m_loadedTextures ≤ 16
    ∧ (∀ i : Fin maxTextures, (i.val : Int) < twoTextures.m_loadedTextures →
        (twoTextures.m_textureIDs i).tag ≠ "wood")
    ∧ (SetShaderTexture
          (SetShaderColor { twoTextures with m_pShaderManager := some { uniforms := [] } }
            255 255 255 255) "wood").toOption.map
        (fun s => (s.m_pShaderManager.bind (fun m => m.uniform? "bUseTexture"),
          s.m_pShaderManager.bind (fun m => m.uniform? "objectTexture"),
          s.m_pShaderManager.bind (fun m => m.uniform? "objectColor")))
      = some (some (.int 1), some (.sampler2D (-1)),
          some (.vec4 ⟨specChannel 255, specChannel 255, specChannel 255,
            specChannel 255⟩)) :=
  ⟨by decide, by decide,
    (SetShaderColor_then_SetShaderTexture_missing_tag twoTextures { uniforms := [] }
      255 255 255 255 "wood" (by decide) (by decide)).2⟩

/-! ### `PrepareScene` and the material registry -/

theorem CreateGLTexture_returns {K : Type} (stbi_load : String → Option StbImage)
    (self : SceneManager K) (gl : GLContext) (filename tag : String)
    (h0 : 0 ≤ self.m_loadedTextures) (h16 : self.m_loadedTextures < maxTextures) :
    ∃ (b : Bool) (s1 : SceneManager K) (g1 : GLContext),
      CreateGLTexture stbi_load self gl filename tag = .ok (b, s1, g1)
      ∧ self.m_loadedTextures ≤ s1.m_loadedTextures
      ∧ s1.m_loadedTextures ≤ self.m_loadedTextures + 1
      ∧ s1.m_objectMaterials = self.m_objectMaterials
      ∧ s1.m_pShaderManager = self.m_pShaderManager := by
  rcases decodes_cases stbi_load filename with
    ⟨-, image, himg, hch⟩ | ⟨-, hnone | ⟨image, himg, h3, h4⟩⟩
  · obtain ⟨s1, hs1, hc1, hm1, hp1⟩ : ∃ s1 : SceneManager K,
        CreateGLTexture.register self (gl.generatedTextures + 1) tag = .ok s1 ∧
        s1.m_loadedTextures = self.m_loadedTextures + 1 ∧
        s1.m_objectMaterials = self.m_objectMaterials ∧
        s1.m_pShaderManager = self.m_pShaderManager :=
      ⟨_, CreateGLTexture.register_ok self _ tag h0 h16, rfl, rfl, rfl⟩
    refine ⟨true, s1, { generatedTextures := gl.generatedTextures + 1 }, ?_,
      by omega, by omega, hm1, hp1⟩
    rw [CreateGLTexture_decodable stbi_load self gl filename tag image himg hch, hs1]
  · exact ⟨false, self, gl, CreateGLTexture_undecodable stbi_load self gl filename tag hnone,
      le_refl _, by omega, rfl, rfl⟩
  · exact ⟨false, self, _,
      CreateGLTexture_bad_channels stbi_load self gl filename tag image himg h3 h4,
      le_refl _, by omega, rfl, rfl⟩

theorem BindGLTextures_loop_returns {K : Type} (self : SceneManager K) :
    ∀ (remaining i : Nat), i + remaining ≤ maxTextures →
      ∃ bound, BindGLTextures.loop self remaining i = .ok bound := by
  intro remaining
  induction remaining with
  | zero => intro i _; exact ⟨[], rfl⟩
  | succ n ih =>
    intro i hi
    have hlt : i < maxTextures := by omega
    obtain ⟨bound, hb⟩ := ih (i + 1) (by omega)
    exact ⟨(i, (self.m_textureIDs ⟨i, hlt⟩).ID) :: bound,
      by simp only [BindGLTextures.loop, hlt, dite_true, hb]⟩

theorem BindGLTextures_returns {K : Type} (self : SceneManager K)
    (hcap : self.m_loadedTextures ≤ maxTextures) :
    ∃ bound, BindGLTextures self = .ok bound := by
  have hmax : maxTextures = 16 := rfl
  exact BindGLTextures_loop_returns self _ 0 (by omega)

theorem SetupSceneLights_returns (self : SceneManager ℚ) (sm : ShaderManager ℚ)
    (h : self.m_pShaderManager = some sm) :
    ∃ s1 : SceneManager ℚ, SetupSceneLights self = .ok s1
      ∧ s1.m_objectMaterials = self.m_objectMaterials
      ∧ s1.m_loadedTextures = self.m_loadedTextures
      ∧ s1.m_pShaderManager.isSome = true := by
  simp only [SetupSceneLights, h]
  exact ⟨_, rfl, rfl, rfl, rfl⟩

theorem PrepareScene_returns (stbi_load : String → Option StbImage) (self : SceneManager ℚ)
    (sm : ShaderManager ℚ) (gl : GLContext) (hsm : self.m_pShaderManager = some sm)
    (h0 : 0 ≤ self.m_loadedTextures) (h11 : self.m_loadedTextures ≤ 11) :
    ∃ (s : SceneManager ℚ) (g : GLContext) (bound : List (Nat × Nat)),
      PrepareScene stbi_load self gl = .ok (s, g, bound)
      ∧ s.m_objectMaterials = self.m_objectMaterials
      ∧ s.m_pShaderManager.isSome = true := by
  have hmax : maxTextures = 16 := rfl
  obtain ⟨b1, s1, g1, e1, l1, u1, m1, p1⟩ := CreateGLTexture_returns stbi_load self gl
    "Textures/floor.jpg" "floor" h0 (by omega)
  obtain ⟨b2, s2, g2, e2, l2, u2, m2, p2⟩ := CreateGLTexture_returns stbi_load s1 g1
    "Textures/coffee_body.jpg" "coffeeBody" (by omega) (by omega)
  obtain ⟨b3, s3, g3, e3, l3, u3, m3, p3⟩ := CreateGLTexture_returns stbi_load s2 g2
    "Textures/coffee_liquid.jpg" "coffeeLiquid" (by omega) (by omega)
  obtain ⟨b4, s4, g4, e4, l4, u4, m4, p4⟩ := CreateGLTexture_returns stbi_load s3 g3
    "Textures/laptop.jpg" "laptop" (by omega) (by omega)
  obtain ⟨b5, s5, g5, e5, l5, u5, m5, p5⟩ := CreateGLTexture_returns stbi_load s4 g4
    "Textures/mouse.jpg" "mouse" (by omega) (by omega)
  obtain ⟨bound, hb⟩ := BindGLTextures_returns s5 (by omega)
  obtain ⟨s6, e6, m6, -, p6⟩ := SetupSceneLights_returns s5 sm
    (by rw [p5, p4, p3, p2, p1, hsm])
  refine ⟨s6, g5, bound, ?_, by rw [m6, m5, m4, m3, m2, m1], p6⟩
  simp only [PrepareScene, e1, e2, e3, e4, e5, hb, e6]

theorem FindMaterial_empty {K : Type} (self : SceneManager K) (tag : String)
    (material : OBJECT_MATERIAL K) (h : self.m_objectMaterials = []) :
    FindMaterial self tag material = .ok (false, material) := by
  simp [FindMaterial, h]

theorem SetShaderMaterial_empty {K : Type} (indeterminate : OBJECT_MATERIAL K)
    (self : SceneManager K) (materialTag : String) (h : self.m_objectMaterials = []) :
    SetShaderMaterial indeterminate self materialTag = .ok self := by
  simp [SetShaderMaterial, h]

/-- C12 (the code departs from the claim): `PrepareScene` never calls
`DefineObjectMaterials`.  On a freshly constructed scene manager (non-null shader manager,
loaded count between 0 and 11) `PrepareScene` returns and the material registry is still
empty: `FindMaterial` then returns `false` for every tag, the four used by `RenderScene`
included, and `SetShaderMaterial` uploads nothing.  The four records tagged porcelain,
gold, silver, bronze exist only after `DefineObjectMaterials` has been called. -/
theorem PrepareScene_leaves_material_registry_empty
    (stbi_load : String → Option StbImage) (sm : ShaderManager ℚ) (loadedTextures : Int)
    (textureID : Fin maxTextures → Nat) (gl : GLContext)
    (h0 : 0 ≤ loadedTextures) (h11 : loadedTextures ≤ 11) :
    (∃ (s : SceneManager ℚ) (g : GLContext) (bound : List (Nat × Nat)),
      PrepareScene stbi_load (SceneManager.construct (some sm) loadedTextures textureID) gl
        = .ok (s, g, bound)
      ∧ s.m_objectMaterials = []
      ∧ (∀ (tag : String) (material : OBJECT_MATERIAL ℚ),
          FindMaterial s tag material = .ok (false, material))
      ∧ (∀ (indeterminate : OBJECT_MATERIAL ℚ) (materialTag : String),
          SetShaderMaterial indeterminate s materialTag = .ok s))
    ∧ (DefineObjectMaterials
        (SceneManager.construct (some sm) loadedTextures textureID)).m_objectMaterials.map
          (fun m => m.tag) = ["porcelain", "gold", "silver", "bronze"] := by
  refine ⟨?_, rfl⟩
  obtain ⟨s, g, bound, hp, hm, -⟩ := PrepareScene_returns stbi_load
    (SceneManager.construct (some sm) loadedTextures textureID) sm gl rfl h0 h11
  have hempty : s.m_objectMaterials = [] := hm
  exact ⟨s, g, bound, hp, hempty, fun tag material => FindMaterial_empty s tag material hempty,
    fun ind tag => SetShaderMaterial_empty ind s tag hempty⟩

/-- Witness for C12: a scene manager constructed with an empty shader and no loaded
texture, every texture file decodable; after `PrepareScene` five textures are loaded and
no material is defined, so `FindMaterial("porcelain", …)` returns `false`. -/
theorem PrepareScene_leaves_material_registry_empty_witness :
    ((0 : Int) ≤ 0 ∧ (0 : Int) ≤ 11)
    ∧ (PrepareScene exampleDecoder
          (SceneManager.construct (some { uniforms := [] }) 0 (fun _ => 0))
          { generatedTextures := 0 }).toOption.map
        (fun r => (r.1.m_loadedTextures, r.1.m_objectMaterials.length,
          FindMaterial r.1 "porcelain" exampleOutput))
      = some (5, 0, .ok (false, exampleOutput))
    ∧ ∃ (s : SceneManager ℚ) (g : GLContext) (bound : List (Nat × Nat)),
        PrepareScene exampleDecoder
            (SceneManager.construct (some { uniforms := [] }) 0 (fun _ => 0))
            { generatedTextures := 0 } = .ok (s, g, bound)
        ∧ s.m_objectMaterials = [] :=
  ⟨⟨by decide, by decide⟩, rfl,
    (PrepareScene_leaves_material_registry_empty exampleDecoder { uniforms := [] } 0
      (fun _ => 0) { generatedTextures := 0 } (by decide) (by decide)).1.imp
      (fun _ hs => hs.imp (fun _ hg => hg.imp (fun _ h => ⟨h.1, h.2.1⟩)))⟩

end CS330
